import Mathlib

/-!
Verification development for the DrowsyVision drowsiness state tracker.

The repository contains two realizations of the tracker:
* the client-side `EyeDetector` (src/lib/eyeDetector.ts), embedded here as
  `CState` / `processFrameC`;
* the server-side `DrowsinessDetector` (backend/detector.py, shipped inside
  the backend setup document), embedded here as `SState` / `processFrameS`.

Floating point numbers are modelled as exact rationals; per-frame wall-clock
time is an explicit `now` parameter (the design mandates an injectable time
source).  Eye state is the two-valued OPEN/CLOSED enum of both sources.
Each `processFrame` is split into its successive phases (smoothing,
calibration, hysteresis machine, alarm check), composed in the source's
order.
-/

inductive EyeState where
  | OPEN : EyeState
  | CLOSED : EyeState
deriving DecidableEq, Repr

/-! ## Client tracker (src/lib/eyeDetector.ts) -/

/-- Mutable fields of the client `EyeDetector` class (eyeDetector.ts lines
7-22), with configuration constants included since they live on the same
object. -/
structure CState where
  baseline : List ℚ
  isCalibrating : Bool
  TH_LOW : ℚ
  TH_HIGH : ℚ
  smoothedEye : ℚ
  smoothingFactor : ℚ
  closedFrames : ℕ
  openFrames : ℕ
  FRAMES_REQUIRED : ℕ
  eyeState : EyeState
  closedStartTime : ℚ
  refractoryUntil : ℚ
  CLOSED_SECONDS : ℚ
  REFRACTORY : ℚ
deriving DecidableEq, Repr

/-- Field initializers of the client `EyeDetector` (eyeDetector.ts lines
9-22): thresholds default to 0.015/0.02, the smoothed signal is seeded at
0.03, calibration is off. -/
def initClient : CState where
  baseline := []
  isCalibrating := false
  TH_LOW := 3/200
  TH_HIGH := 1/50
  smoothedEye := 3/100
  smoothingFactor := 7/10
  closedFrames := 0
  openFrames := 0
  FRAMES_REQUIRED := 5
  eyeState := EyeState.OPEN
  closedStartTime := 0
  refractoryUntil := 0
  CLOSED_SECONDS := 6/5
  REFRACTORY := 5/2

/-- Result record returned by the client `processFrame` (both the no-face
and the face branch). -/
structure CResult where
  detected : Bool
  state : EyeState
  eye : ℚ
  TH_LOW : ℚ
  TH_HIGH : ℚ
  baseline_ready : Bool
  closed_for : ℚ
  alarm : Bool
deriving DecidableEq, Repr

/-- Median as computed by the client (eyeDetector.ts lines 96-97): sort
ascending, take the element at index `floor(length / 2)`. -/
def medianC (l : List ℚ) : ℚ :=
  (l.insertionSort (· ≤ ·)).getD (l.length / 2) 0

/-- The exponential moving average of eyeDetector.ts line 90. -/
def clientSmooth (s : CState) (rawEye : ℚ) : ℚ :=
  s.smoothingFactor * s.smoothedEye + (1 - s.smoothingFactor) * rawEye

/-- Baseline calibration phase (eyeDetector.ts lines 93-102): while
calibrating, push the smoothed sample; on reaching 20 samples derive the
thresholds from the median and stop calibrating.  The buffer itself is
kept. -/
def clientCalib (s : CState) (sm : ℚ) : CState :=
  if s.isCalibrating then
    if (s.baseline ++ [sm]).length ≥ 20 then
      { s with baseline := s.baseline ++ [sm], smoothedEye := sm
               TH_LOW := medianC (s.baseline ++ [sm]) * (3/4)
               TH_HIGH := medianC (s.baseline ++ [sm]) * (17/20)
               isCalibrating := false }
    else
      { s with baseline := s.baseline ++ [sm], smoothedEye := sm }
  else
    { s with smoothedEye := sm }

/-- Hysteresis state machine phase (eyeDetector.ts lines 107-123). -/
def clientMachine (sm now : ℚ) (s : CState) : CState :=
  if sm < s.TH_LOW then
    if s.closedFrames + 1 ≥ s.FRAMES_REQUIRED ∧ s.eyeState = EyeState.OPEN then
      { s with closedFrames := s.closedFrames + 1, openFrames := 0
               eyeState := EyeState.CLOSED, closedStartTime := now }
    else
      { s with closedFrames := s.closedFrames + 1, openFrames := 0 }
  else if sm > s.TH_HIGH then
    if s.openFrames + 1 ≥ s.FRAMES_REQUIRED ∧ s.eyeState = EyeState.CLOSED then
      { s with openFrames := s.openFrames + 1, closedFrames := 0
               eyeState := EyeState.OPEN, closedStartTime := 0 }
    else
      { s with openFrames := s.openFrames + 1, closedFrames := 0 }
  else
    s

/-- Shape of the face-detected result (eyeDetector.ts lines 137-146). -/
def clientResult (s : CState) (sm closedFor : ℚ) (alarm : Bool) : CResult where
  detected := true
  state := s.eyeState
  eye := sm
  TH_LOW := s.TH_LOW
  TH_HIGH := s.TH_HIGH
  baseline_ready := decide (s.baseline.length ≥ 20)
  closed_for := closedFor
  alarm := alarm

/-- Alarm / refractory phase (eyeDetector.ts lines 125-135): once the eyes
have been confirmed closed, fire when the closed duration reaches
`CLOSED_SECONDS` and `now` lies strictly past `refractoryUntil`; firing
pushes `refractoryUntil` to `now + REFRACTORY`. -/
def clientAlarm (sm now : ℚ) (s : CState) : CResult × CState :=
  if s.eyeState = EyeState.CLOSED ∧ s.closedStartTime > 0 then
    if now - s.closedStartTime ≥ s.CLOSED_SECONDS ∧ now > s.refractoryUntil then
      (clientResult s sm (now - s.closedStartTime) true,
        { s with refractoryUntil := now + s.REFRACTORY })
    else
      (clientResult s sm (now - s.closedStartTime) false, s)
  else
    (clientResult s sm 0 false, s)

/-- One call of the client `EyeDetector.processFrame` (eyeDetector.ts lines
64-147) on an already-extracted raw EAR (`none` models the
no-face-landmarks branch, lines 71-82).  `now` stands for the
`Date.now()/1000` read of line 104. -/
def processFrameC (s : CState) (rawEye? : Option ℚ) (now : ℚ) :
    CResult × CState :=
  match rawEye? with
  | none =>
      ({ detected := false
         state := s.eyeState
         eye := s.smoothedEye
         TH_LOW := s.TH_LOW
         TH_HIGH := s.TH_HIGH
         baseline_ready := decide (s.baseline.length ≥ 20)
         closed_for := 0
         alarm := false }, s)
  | some rawEye =>
      clientAlarm (clientSmooth s rawEye) now
        (clientMachine (clientSmooth s rawEye) now
          (clientCalib s (clientSmooth s rawEye)))

/-- Client `EyeDetector.startCalibration` (eyeDetector.ts lines 149-152):
it only empties the buffer and raises the calibrating flag. -/
def startCalibrationC (s : CState) : CState :=
  { s with baseline := [], isCalibrating := true }

/-- Client `EyeDetector.updateSettings` (eyeDetector.ts lines 162-166). -/
def updateSettingsC (s : CState)
    (closedSeconds? refractory? smoothingFactor? : Option ℚ) : CState :=
  let s1 := match closedSeconds? with
    | some c => { s with CLOSED_SECONDS := c }
    | none => s
  let s2 := match refractory? with
    | some r => { s1 with REFRACTORY := r }
    | none => s1
  match smoothingFactor? with
  | some f => { s2 with smoothingFactor := f }
  | none => s2

/-- Fold a list of `(rawEye?, now)` frames through the client tracker,
keeping only the state. -/
def runFramesC (s : CState) : List (Option ℚ × ℚ) → CState
  | [] => s
  | (r, t) :: rest => runFramesC (processFrameC s r t).2 rest

/-- The per-frame results of feeding a list of frames to the client
tracker. -/
def resultsC (s : CState) : List (Option ℚ × ℚ) → List CResult
  | [] => []
  | (r, t) :: rest =>
      (processFrameC s r t).1 :: resultsC (processFrameC s r t).2 rest

/-- Times of the frames at which the client tracker reports
`alarm = true`. -/
def alarmTimes (s : CState) : List (Option ℚ × ℚ) → List ℚ
  | [] => []
  | (r, t) :: rest =>
      (if (processFrameC s r t).1.alarm then [t] else []) ++
        alarmTimes (processFrameC s r t).2 rest

/-! ## Server tracker (backend/detector.py) -/

/-- Mutable fields and configuration of the server `DrowsinessDetector`
(detector.py `__init__`).  Nullable Python fields become `Option ℚ`. -/
structure SState where
  CLOSED_SECONDS : ℚ
  REFRACTORY : ℚ
  SMOOTHING_FACTOR : ℚ
  BASELINE_FRAMES : ℕ
  FRAMES_REQUIRED : ℕ
  baseline_buffer : List ℚ
  TH_LOW : Option ℚ
  TH_HIGH : Option ℚ
  smoothed_eye : Option ℚ
  current_state : EyeState
  closed_start : Option ℚ
  last_alarm_time : Option ℚ
  consecutive_detections : ℕ
deriving DecidableEq, Repr

/-- The server detector as constructed with its default parameters. -/
def initServer : SState where
  CLOSED_SECONDS := 6/5
  REFRACTORY := 5/2
  SMOOTHING_FACTOR := 7/10
  BASELINE_FRAMES := 60
  FRAMES_REQUIRED := 5
  baseline_buffer := []
  TH_LOW := none
  TH_HIGH := none
  smoothed_eye := none
  current_state := EyeState.OPEN
  closed_start := none
  last_alarm_time := none
  consecutive_detections := 0

/-- The `DetectorState` dataclass returned by the server per frame. -/
structure SResult where
  state : EyeState
  eye_openness : ℚ
  th_low : ℚ
  th_high : ℚ
  baseline_ready : Bool
  closed_for : ℚ
  alarm : Bool
  detected : Bool
deriving DecidableEq, Repr

/-- Python truthiness of an optional float: `None` and `0.0` are falsy. -/
def truthyQ : Option ℚ → Bool
  | none => false
  | some c => decide (c ≠ 0)

/-- Median as computed by `np.median`: sort ascending; the middle element
for odd length, the mean of the two middle elements for even length. -/
def medianS (l : List ℚ) : ℚ :=
  if l.length % 2 = 1 then (l.insertionSort (· ≤ ·)).getD (l.length / 2) 0
  else ((l.insertionSort (· ≤ ·)).getD (l.length / 2 - 1) 0 +
    (l.insertionSort (· ≤ ·)).getD (l.length / 2) 0) / 2

/-- Server `DrowsinessDetector._get_current_state` (detector.py): the
result emitted while uncalibrated or when detection fails, with `or 0.0`
defaults for the nullable fields. -/
def getCurrentState (s : SState) (detected : Bool) : SResult where
  state := s.current_state
  eye_openness := s.smoothed_eye.getD 0
  th_low := s.TH_LOW.getD 0
  th_high := s.TH_HIGH.getD 0
  baseline_ready := s.TH_LOW.isSome
  closed_for := 0
  alarm := false
  detected := detected

/-- Server smoothing (detector.py): the very first sample is taken as-is,
later samples go through the exponential moving average. -/
def serverSmooth (s : SState) (rawEye : ℚ) : ℚ :=
  match s.smoothed_eye with
  | none => rawEye
  | some p => s.SMOOTHING_FACTOR * p + (1 - s.SMOOTHING_FACTOR) * rawEye

/-- Server baseline calibration step, taken while `TH_LOW is None`: append
the smoothed sample and derive both thresholds from the median once
`BASELINE_FRAMES` samples have accumulated.  The buffer is kept. -/
def serverCalib (s : SState) (sm : ℚ) : SState :=
  if (s.baseline_buffer ++ [sm]).length ≥ s.BASELINE_FRAMES then
    { s with baseline_buffer := s.baseline_buffer ++ [sm]
             smoothed_eye := some sm
             TH_LOW := some (medianS (s.baseline_buffer ++ [sm]) * (3/4))
             TH_HIGH := some (medianS (s.baseline_buffer ++ [sm]) * (17/20)) }
  else
    { s with baseline_buffer := s.baseline_buffer ++ [sm]
             smoothed_eye := some sm }

/-- Server hysteresis machine (detector.py): CLOSED entry is immediate and
starts the consecutive counter at 1; any sample above TH_HIGH reopens at
once; the dead band changes nothing beyond the smoothed signal. -/
def serverMachine (sm now : ℚ) (s : SState) : SState :=
  if sm < s.TH_LOW.getD 0 then
    if s.current_state = EyeState.OPEN then
      { s with smoothed_eye := some sm
               current_state := EyeState.CLOSED
               closed_start := some now
               consecutive_detections := 1 }
    else
      { s with smoothed_eye := some sm
               consecutive_detections := s.consecutive_detections + 1 }
  else if sm > s.TH_HIGH.getD 0 then
    { s with smoothed_eye := some sm
             current_state := EyeState.OPEN
             closed_start := none
             consecutive_detections := 0 }
  else
    { s with smoothed_eye := some sm }

/-- Shape of the server's calibrated face-detected result. -/
def serverResult (s : SState) (sm closedFor : ℚ) (alarm : Bool) : SResult where
  state := s.current_state
  eye_openness := sm
  th_low := s.TH_LOW.getD 0
  th_high := s.TH_HIGH.getD 0
  baseline_ready := true
  closed_for := closedFor
  alarm := alarm
  detected := true

/-- Server alarm phase (detector.py): the reported closed duration and the
alarm both require the state to be CLOSED with a truthy closed-start and at
least `FRAMES_REQUIRED` consecutive below-threshold detections; the alarm
additionally requires the duration to reach `CLOSED_SECONDS` and the
refractory gap (`now - last_alarm_time ≥ REFRACTORY`, or no alarm yet). -/
def serverAlarm (sm now : ℚ) (s : SState) : SResult × SState :=
  if s.current_state = EyeState.CLOSED ∧ truthyQ s.closed_start = true ∧
      s.consecutive_detections ≥ s.FRAMES_REQUIRED then
    if now - s.closed_start.getD 0 ≥ s.CLOSED_SECONDS ∧
        (s.last_alarm_time.isSome = false ∨
          s.last_alarm_time.getD 0 ≤ now - s.REFRACTORY) then
      (serverResult s sm (now - s.closed_start.getD 0) true,
        { s with last_alarm_time := some now })
    else
      (serverResult s sm (now - s.closed_start.getD 0) false, s)
  else
    (serverResult s sm 0 false, s)

/-- One call of the server `DrowsinessDetector.process_frame` on the
extracted raw EAR (`none` models the no-face-landmarks branch).  The two
`time.time()` reads of one call are both modelled by the injected `now`
(the design mandates an injectable time source). -/
def processFrameS (s : SState) (rawEye? : Option ℚ) (now : ℚ) :
    SResult × SState :=
  match rawEye? with
  | none => (getCurrentState s false, s)
  | some rawEye =>
      if s.TH_LOW.isSome = false then
        (getCurrentState (serverCalib s (serverSmooth s rawEye)) true,
          serverCalib s (serverSmooth s rawEye))
      else
        serverAlarm (serverSmooth s rawEye) now
          (serverMachine (serverSmooth s rawEye) now s)

/-- Server `DrowsinessDetector.reset_baseline` (detector.py): clears the
buffer and thresholds, forces OPEN, clears the closed-start timestamp.
`last_alarm_time` and the smoothed signal survive. -/
def resetBaselineS (s : SState) : SState :=
  { s with baseline_buffer := [], TH_LOW := none, TH_HIGH := none
           current_state := EyeState.OPEN, closed_start := none }

/-- Server `DrowsinessDetector.update_params` (detector.py): each provided
field overwrites the corresponding configuration constant. -/
def updateParamsS (s : SState)
    (closedSeconds? refractory? smoothingFactor? : Option ℚ) : SState :=
  let s1 := match closedSeconds? with
    | some c => { s with CLOSED_SECONDS := c }
    | none => s
  let s2 := match refractory? with
    | some r => { s1 with REFRACTORY := r }
    | none => s1
  match smoothingFactor? with
  | some f => { s2 with SMOOTHING_FACTOR := f }
  | none => s2

/-- Fold a list of `(rawEye?, now)` frames through the server tracker,
keeping only the state. -/
def runFramesS (s : SState) : List (Option ℚ × ℚ) → SState
  | [] => s
  | (r, t) :: rest => runFramesS (processFrameS s r t).2 rest

/-- The per-frame results of feeding a list of frames to the server
tracker. -/
def resultsS (s : SState) : List (Option ℚ × ℚ) → List SResult
  | [] => []
  | (r, t) :: rest =>
      (processFrameS s r t).1 :: resultsS (processFrameS s r t).2 rest

/-! ## Helper lemmas about the client phases -/

lemma clientCalib_of_not {s : CState} (sm : ℚ) (h : s.isCalibrating = false) :
    clientCalib s sm = { s with smoothedEye := sm } := by
  simp [clientCalib, h]

lemma clientCalib_proj (s : CState) (sm : ℚ) :
    (clientCalib s sm).closedFrames = s.closedFrames ∧
    (clientCalib s sm).openFrames = s.openFrames ∧
    (clientCalib s sm).FRAMES_REQUIRED = s.FRAMES_REQUIRED ∧
    (clientCalib s sm).eyeState = s.eyeState ∧
    (clientCalib s sm).closedStartTime = s.closedStartTime ∧
    (clientCalib s sm).refractoryUntil = s.refractoryUntil ∧
    (clientCalib s sm).CLOSED_SECONDS = s.CLOSED_SECONDS ∧
    (clientCalib s sm).REFRACTORY = s.REFRACTORY ∧
    (clientCalib s sm).smoothingFactor = s.smoothingFactor ∧
    (clientCalib s sm).smoothedEye = sm := by
  unfold clientCalib
  split_ifs <;> simp

lemma clientMachine_proj (sm now : ℚ) (s : CState) :
    (clientMachine sm now s).baseline = s.baseline ∧
    (clientMachine sm now s).isCalibrating = s.isCalibrating ∧
    (clientMachine sm now s).TH_LOW = s.TH_LOW ∧
    (clientMachine sm now s).TH_HIGH = s.TH_HIGH ∧
    (clientMachine sm now s).smoothedEye = s.smoothedEye ∧
    (clientMachine sm now s).smoothingFactor = s.smoothingFactor ∧
    (clientMachine sm now s).FRAMES_REQUIRED = s.FRAMES_REQUIRED ∧
    (clientMachine sm now s).refractoryUntil = s.refractoryUntil ∧
    (clientMachine sm now s).CLOSED_SECONDS = s.CLOSED_SECONDS ∧
    (clientMachine sm now s).REFRACTORY = s.REFRACTORY := by
  unfold clientMachine
  split_ifs <;> simp

lemma clientAlarm_snd_proj (sm now : ℚ) (s : CState) :
    (clientAlarm sm now s).2.baseline = s.baseline ∧
    (clientAlarm sm now s).2.isCalibrating = s.isCalibrating ∧
    (clientAlarm sm now s).2.TH_LOW = s.TH_LOW ∧
    (clientAlarm sm now s).2.TH_HIGH = s.TH_HIGH ∧
    (clientAlarm sm now s).2.smoothedEye = s.smoothedEye ∧
    (clientAlarm sm now s).2.smoothingFactor = s.smoothingFactor ∧
    (clientAlarm sm now s).2.closedFrames = s.closedFrames ∧
    (clientAlarm sm now s).2.openFrames = s.openFrames ∧
    (clientAlarm sm now s).2.FRAMES_REQUIRED = s.FRAMES_REQUIRED ∧
    (clientAlarm sm now s).2.eyeState = s.eyeState ∧
    (clientAlarm sm now s).2.closedStartTime = s.closedStartTime ∧
    (clientAlarm sm now s).2.CLOSED_SECONDS = s.CLOSED_SECONDS ∧
    (clientAlarm sm now s).2.REFRACTORY = s.REFRACTORY := by
  unfold clientAlarm
  split_ifs <;> simp

lemma clientAlarm_alarm_iff (sm now : ℚ) (s : CState) :
    (clientAlarm sm now s).1.alarm = true ↔
      (s.eyeState = EyeState.CLOSED ∧ s.closedStartTime > 0 ∧
        now - s.closedStartTime ≥ s.CLOSED_SECONDS ∧
        now > s.refractoryUntil) := by
  unfold clientAlarm
  split_ifs with h1 h2
  · exact iff_of_true rfl ⟨h1.1, h1.2, h2.1, h2.2⟩
  · refine iff_of_false (by simp [clientResult]) ?_
    rintro ⟨-, -, h3, h4⟩
    exact h2 ⟨h3, h4⟩
  · refine iff_of_false (by simp [clientResult]) ?_
    rintro ⟨ha, hb, -, -⟩
    exact h1 ⟨ha, hb⟩

lemma clientAlarm_closed_for (sm now : ℚ) (s : CState) :
    (clientAlarm sm now s).1.closed_for =
      if s.eyeState = EyeState.CLOSED ∧ s.closedStartTime > 0 then
        now - s.closedStartTime
      else 0 := by
  unfold clientAlarm
  split_ifs with h1 h2 <;> simp [clientResult]

lemma clientAlarm_rU (sm now : ℚ) (s : CState) :
    ((clientAlarm sm now s).1.alarm = true ∧
      (clientAlarm sm now s).2.refractoryUntil = now + s.REFRACTORY) ∨
    ((clientAlarm sm now s).1.alarm = false ∧
      (clientAlarm sm now s).2.refractoryUntil = s.refractoryUntil) := by
  unfold clientAlarm
  split_ifs <;> simp [clientResult]

lemma processFrameC_some (s : CState) (raw now : ℚ) :
    processFrameC s (some raw) now =
      clientAlarm (clientSmooth s raw) now
        (clientMachine (clientSmooth s raw) now
          (clientCalib s (clientSmooth s raw))) := rfl

lemma processFrameC_noCalib (s : CState) (raw now : ℚ)
    (hcal : s.isCalibrating = false) :
    (processFrameC s (some raw) now).2.baseline = s.baseline ∧
    (processFrameC s (some raw) now).2.isCalibrating = false ∧
    (processFrameC s (some raw) now).2.TH_LOW = s.TH_LOW ∧
    (processFrameC s (some raw) now).2.TH_HIGH = s.TH_HIGH ∧
    (processFrameC s (some raw) now).2.smoothedEye = clientSmooth s raw ∧
    (processFrameC s (some raw) now).2.smoothingFactor = s.smoothingFactor ∧
    (processFrameC s (some raw) now).2.FRAMES_REQUIRED = s.FRAMES_REQUIRED ∧
    (processFrameC s (some raw) now).2.CLOSED_SECONDS = s.CLOSED_SECONDS ∧
    (processFrameC s (some raw) now).2.REFRACTORY = s.REFRACTORY := by
  rw [processFrameC_some, clientCalib_of_not _ hcal]
  have hm := clientMachine_proj (clientSmooth s raw) now
    { s with smoothedEye := clientSmooth s raw }
  have ha := clientAlarm_snd_proj (clientSmooth s raw) now
    (clientMachine (clientSmooth s raw) now { s with smoothedEye := clientSmooth s raw })
  obtain ⟨m1, m2, m3, m4, m5, m6, m7, m8, m9, m10⟩ := hm
  obtain ⟨a1, a2, a3, a4, a5, a6, a7, a8, a9, a10, a11, a12, a13⟩ := ha
  simp_all

lemma processFrameC_config (s : CState) (i : Option ℚ) (now : ℚ) :
    (processFrameC s i now).2.REFRACTORY = s.REFRACTORY ∧
    (processFrameC s i now).2.CLOSED_SECONDS = s.CLOSED_SECONDS ∧
    (processFrameC s i now).2.smoothingFactor = s.smoothingFactor ∧
    (processFrameC s i now).2.FRAMES_REQUIRED = s.FRAMES_REQUIRED := by
  match i with
  | none => exact ⟨rfl, rfl, rfl, rfl⟩
  | some raw =>
      rw [processFrameC_some]
      have hc := clientCalib_proj s (clientSmooth s raw)
      have hm := clientMachine_proj (clientSmooth s raw) now
        (clientCalib s (clientSmooth s raw))
      have ha := clientAlarm_snd_proj (clientSmooth s raw) now
        (clientMachine (clientSmooth s raw) now (clientCalib s (clientSmooth s raw)))
      obtain ⟨c1, c2, c3, c4, c5, c6, c7, c8, c9, c10⟩ := hc
      obtain ⟨m1, m2, m3, m4, m5, m6, m7, m8, m9, m10⟩ := hm
      obtain ⟨a1, a2, a3, a4, a5, a6, a7, a8, a9, a10, a11, a12, a13⟩ := ha
      simp_all

lemma clientMachine_open_to_closed {sm now : ℚ} {s : CState}
    (hopen : s.eyeState = EyeState.OPEN)
    (hclosed : (clientMachine sm now s).eyeState = EyeState.CLOSED) :
    sm < s.TH_LOW ∧ s.closedFrames + 1 ≥ s.FRAMES_REQUIRED ∧
    (clientMachine sm now s).closedFrames = s.closedFrames + 1 ∧
    (clientMachine sm now s).closedStartTime = now := by
  unfold clientMachine at *
  split_ifs at hclosed with h1 h2 h3 h4 <;> simp_all

lemma clientMachine_from_closed (sm now : ℚ) (s : CState)
    (hc : s.eyeState = EyeState.CLOSED) :
    ((clientMachine sm now s).eyeState = EyeState.CLOSED ∧
      (clientMachine sm now s).closedStartTime = s.closedStartTime) ∨
    (clientMachine sm now s).eyeState = EyeState.OPEN := by
  unfold clientMachine
  split_ifs with h1 h2 h3 h4 <;> simp_all

lemma clientMachine_low_stay_open {sm now : ℚ} {s : CState}
    (hlow : sm < s.TH_LOW)
    (hlt : s.closedFrames + 1 < s.FRAMES_REQUIRED) :
    (clientMachine sm now s).eyeState = s.eyeState ∧
    (clientMachine sm now s).closedFrames = s.closedFrames + 1 := by
  unfold clientMachine
  have hn : ¬ (s.closedFrames + 1 ≥ s.FRAMES_REQUIRED ∧ s.eyeState = EyeState.OPEN) := by
    rintro ⟨hge, -⟩; omega
  simp [hlow, hn]

lemma clientMachine_high_from_open {sm now : ℚ} {s : CState}
    (hth : s.TH_LOW ≤ s.TH_HIGH)
    (hhigh : sm > s.TH_HIGH) (hopen : s.eyeState = EyeState.OPEN) :
    (clientMachine sm now s).eyeState = EyeState.OPEN := by
  unfold clientMachine
  have hnl : ¬ sm < s.TH_LOW := not_lt.2 (le_trans hth (le_of_lt hhigh))
  simp [hnl, hhigh, hopen]

lemma clientMachine_mid {sm now : ℚ} {s : CState}
    (h1 : ¬ sm < s.TH_LOW) (h2 : ¬ sm > s.TH_HIGH) :
    clientMachine sm now s = s := by
  simp [clientMachine, h1, h2]

/-! ## Helper lemmas about the server phases -/

lemma serverMachine_proj (sm now : ℚ) (s : SState) :
    (serverMachine sm now s).CLOSED_SECONDS = s.CLOSED_SECONDS ∧
    (serverMachine sm now s).REFRACTORY = s.REFRACTORY ∧
    (serverMachine sm now s).SMOOTHING_FACTOR = s.SMOOTHING_FACTOR ∧
    (serverMachine sm now s).BASELINE_FRAMES = s.BASELINE_FRAMES ∧
    (serverMachine sm now s).FRAMES_REQUIRED = s.FRAMES_REQUIRED ∧
    (serverMachine sm now s).baseline_buffer = s.baseline_buffer ∧
    (serverMachine sm now s).TH_LOW = s.TH_LOW ∧
    (serverMachine sm now s).TH_HIGH = s.TH_HIGH ∧
    (serverMachine sm now s).smoothed_eye = some sm ∧
    (serverMachine sm now s).last_alarm_time = s.last_alarm_time := by
  unfold serverMachine
  split_ifs <;> simp

lemma serverAlarm_snd_proj (sm now : ℚ) (s : SState) :
    (serverAlarm sm now s).2.CLOSED_SECONDS = s.CLOSED_SECONDS ∧
    (serverAlarm sm now s).2.REFRACTORY = s.REFRACTORY ∧
    (serverAlarm sm now s).2.SMOOTHING_FACTOR = s.SMOOTHING_FACTOR ∧
    (serverAlarm sm now s).2.BASELINE_FRAMES = s.BASELINE_FRAMES ∧
    (serverAlarm sm now s).2.FRAMES_REQUIRED = s.FRAMES_REQUIRED ∧
    (serverAlarm sm now s).2.baseline_buffer = s.baseline_buffer ∧
    (serverAlarm sm now s).2.TH_LOW = s.TH_LOW ∧
    (serverAlarm sm now s).2.TH_HIGH = s.TH_HIGH ∧
    (serverAlarm sm now s).2.smoothed_eye = s.smoothed_eye ∧
    (serverAlarm sm now s).2.current_state = s.current_state ∧
    (serverAlarm sm now s).2.closed_start = s.closed_start ∧
    (serverAlarm sm now s).2.consecutive_detections = s.consecutive_detections := by
  unfold serverAlarm
  split_ifs <;> simp

lemma serverCalib_proj (s : SState) (sm : ℚ) :
    (serverCalib s sm).CLOSED_SECONDS = s.CLOSED_SECONDS ∧
    (serverCalib s sm).REFRACTORY = s.REFRACTORY ∧
    (serverCalib s sm).SMOOTHING_FACTOR = s.SMOOTHING_FACTOR ∧
    (serverCalib s sm).BASELINE_FRAMES = s.BASELINE_FRAMES ∧
    (serverCalib s sm).FRAMES_REQUIRED = s.FRAMES_REQUIRED ∧
    (serverCalib s sm).baseline_buffer = s.baseline_buffer ++ [sm] ∧
    (serverCalib s sm).smoothed_eye = some sm ∧
    (serverCalib s sm).current_state = s.current_state ∧
    (serverCalib s sm).closed_start = s.closed_start ∧
    (serverCalib s sm).last_alarm_time = s.last_alarm_time ∧
    (serverCalib s sm).consecutive_detections = s.consecutive_detections := by
  unfold serverCalib
  split_ifs <;> simp

lemma processFrameS_some_cal (s : SState) (raw now : ℚ)
    (h : s.TH_LOW.isSome = true) :
    processFrameS s (some raw) now =
      serverAlarm (serverSmooth s raw) now
        (serverMachine (serverSmooth s raw) now s) := by
  simp [processFrameS, h]

lemma processFrameS_some_uncal (s : SState) (raw now : ℚ)
    (h : s.TH_LOW = none) :
    processFrameS s (some raw) now =
      (getCurrentState (serverCalib s (serverSmooth s raw)) true,
        serverCalib s (serverSmooth s raw)) := by
  simp [processFrameS, h]

lemma processFrameC_smoothed (s : CState) (raw now : ℚ) :
    (processFrameC s (some raw) now).2.smoothedEye = clientSmooth s raw := by
  rw [processFrameC_some]
  obtain ⟨-, -, -, -, a5, -⟩ := clientAlarm_snd_proj (clientSmooth s raw) now
    (clientMachine (clientSmooth s raw) now (clientCalib s (clientSmooth s raw)))
  obtain ⟨-, -, -, -, m5, -⟩ := clientMachine_proj (clientSmooth s raw) now
    (clientCalib s (clientSmooth s raw))
  obtain ⟨-, -, -, -, -, -, -, -, -, c10⟩ := clientCalib_proj s (clientSmooth s raw)
  rw [a5, m5, c10]

lemma processFrameS_smoothed (s : SState) (raw now : ℚ) :
    (processFrameS s (some raw) now).2.smoothed_eye = some (serverSmooth s raw) := by
  by_cases h : s.TH_LOW.isSome
  · rw [processFrameS_some_cal s raw now h]
    obtain ⟨-, -, -, -, -, -, -, -, a9, -⟩ := serverAlarm_snd_proj
      (serverSmooth s raw) now (serverMachine (serverSmooth s raw) now s)
    obtain ⟨-, -, -, -, -, -, -, -, m9, -⟩ := serverMachine_proj
      (serverSmooth s raw) now s
    rw [a9, m9]
  · have hnone : s.TH_LOW = none := by
      cases hh : s.TH_LOW
      · rfl
      · rw [hh] at h; simp at h
    rw [processFrameS_some_uncal s raw now hnone]
    obtain ⟨-, -, -, -, -, -, c7, -⟩ := serverCalib_proj s (serverSmooth s raw)
    exact c7

/-! ## Concrete demonstration traces -/

/-- Twenty identical calibration frames of raw EAR 0.03 at time 0. -/
def demoCalibFrames : List (Option ℚ × ℚ) :=
  List.replicate 20 ((some (3/100) : Option ℚ), (0 : ℚ))

/-- Client state after a full calibration with constant raw EAR 0.03:
thresholds become 0.0225 / 0.0255, state stays OPEN. -/
def demoCalibrated : CState :=
  runFramesC (startCalibrationC initClient) demoCalibFrames

/-- Five below-threshold frames at times 1..5 driving the calibrated client
tracker into CLOSED at time 5. -/
def demoCloseFrames : List (Option ℚ × ℚ) :=
  [(some 0, 1), (some 0, 2), (some 0, 3), (some 0, 4), (some 0, 5)]

/-- Client state confirmed CLOSED since time 5. -/
def demoClosed : CState := runFramesC demoCalibrated demoCloseFrames

/-- Client state right after the first alarm fired at time 7. -/
def demoAlarmed : CState := (processFrameC demoClosed (some 0) 7).2

/-- Calibration, closure at 5, alarm at 7 and one more closed frame at the
exact refractory boundary 7 + 2.5 = 9.5. -/
def demoRefractoryTrace : List (Option ℚ × ℚ) :=
  demoCalibFrames ++ demoCloseFrames ++ [(some 0, 7), (some 0, 19/2)]

/-- Calibrated client tracker left OPEN with a closed streak of 4 by four
below-threshold frames at times 1..4. -/
def demoPre : CState :=
  runFramesC demoCalibrated
    [(some 0, 1), (some 0, 2), (some 0, 3), (some 0, 4)]

/-- The five states traversed by feeding `demoPre` four below-threshold
frames and one above-threshold frame. -/
def demoSc1 : CState := (processFrameC demoPre (some 0) 5).2

def demoSc2 : CState := (processFrameC demoSc1 (some 0) 6).2

def demoSc3 : CState := (processFrameC demoSc2 (some 0) 7).2

def demoSc4 : CState := (processFrameC demoSc3 (some 0) 8).2

def demoSc5 : CState := (processFrameC demoSc4 (some (2/10)) 9).2

set_option maxRecDepth 100000

set_option maxHeartbeats 4000000

lemma closed_ne_open : (EyeState.CLOSED = EyeState.OPEN) = False := by
  simp

lemma open_ne_closed : (EyeState.OPEN = EyeState.CLOSED) = False := by
  simp

lemma runFramesC_append (s : CState) (a b : List (Option ℚ × ℚ)) :
    runFramesC s (a ++ b) = runFramesC (runFramesC s a) b := by
  induction a generalizing s with
  | nil => simp [runFramesC]
  | cons x rest ih =>
      obtain ⟨r, t⟩ := x
      simp [runFramesC, ih]

lemma runFramesS_append (s : SState) (a b : List (Option ℚ × ℚ)) :
    runFramesS s (a ++ b) = runFramesS (runFramesS s a) b := by
  induction a generalizing s with
  | nil => simp [runFramesS]
  | cons x rest ih =>
      obtain ⟨r, t⟩ := x
      simp [runFramesS, ih]

lemma resultsS_append (s : SState) (a b : List (Option ℚ × ℚ)) :
    resultsS s (a ++ b) = resultsS s a ++ resultsS (runFramesS s a) b := by
  induction a generalizing s with
  | nil => simp [resultsS, runFramesS]
  | cons x rest ih =>
      obtain ⟨r, t⟩ := x
      simp [resultsS, runFramesS, ih]

/-- The 20-sample buffer left behind by the demonstration calibration. -/
def demoBuf : List ℚ := List.replicate 20 (3/100)

lemma demoCalibrated_eq : demoCalibrated =
    { baseline := demoBuf, isCalibrating := false, TH_LOW := 9/400,
      TH_HIGH := 51/2000, smoothedEye := 3/100, smoothingFactor := 7/10,
      closedFrames := 0, openFrames := 20, FRAMES_REQUIRED := 5,
      eyeState := EyeState.OPEN, closedStartTime := 0, refractoryUntil := 0,
      CLOSED_SECONDS := 6/5, REFRACTORY := 5/2 } := by
  norm_num [demoCalibrated, demoCalibFrames, demoBuf, runFramesC, processFrameC,
    clientSmooth, clientCalib, clientMachine, clientAlarm, clientResult,
    startCalibrationC, initClient, medianC, List.insertionSort,
    List.orderedInsert, List.replicate]

lemma demoClosed_eq : demoClosed =
    { baseline := demoBuf, isCalibrating := false, TH_LOW := 9/400,
      TH_HIGH := 51/2000, smoothedEye := 50421/10000000,
      smoothingFactor := 7/10, closedFrames := 5, openFrames := 0,
      FRAMES_REQUIRED := 5, eyeState := EyeState.CLOSED, closedStartTime := 5,
      refractoryUntil := 0, CLOSED_SECONDS := 6/5, REFRACTORY := 5/2 } := by
  rw [demoClosed, demoCalibrated_eq]
  norm_num [demoCloseFrames, demoBuf, runFramesC, processFrameC, clientSmooth,
    clientCalib, clientMachine, clientAlarm, clientResult, List.replicate]

lemma demoAlarmed_eq : demoAlarmed =
    { baseline := demoBuf, isCalibrating := false, TH_LOW := 9/400,
      TH_HIGH := 51/2000, smoothedEye := 352947/100000000,
      smoothingFactor := 7/10, closedFrames := 6, openFrames := 0,
      FRAMES_REQUIRED := 5, eyeState := EyeState.CLOSED, closedStartTime := 5,
      refractoryUntil := 19/2, CLOSED_SECONDS := 6/5, REFRACTORY := 5/2 } := by
  rw [demoAlarmed, demoClosed_eq]
  norm_num [demoBuf, processFrameC, clientSmooth, clientCalib, clientMachine,
    clientAlarm, clientResult, List.replicate, closed_ne_open, open_ne_closed]

lemma demoPre_eq : demoPre =
    { baseline := demoBuf, isCalibrating := false, TH_LOW := 9/400,
      TH_HIGH := 51/2000, smoothedEye := 7203/1000000,
      smoothingFactor := 7/10, closedFrames := 4, openFrames := 0,
      FRAMES_REQUIRED := 5, eyeState := EyeState.OPEN, closedStartTime := 0,
      refractoryUntil := 0, CLOSED_SECONDS := 6/5, REFRACTORY := 5/2 } := by
  rw [demoPre, demoCalibrated_eq]
  norm_num [demoBuf, runFramesC, processFrameC, clientSmooth, clientCalib,
    clientMachine, clientAlarm, clientResult, List.replicate,
    closed_ne_open, open_ne_closed]

lemma demoSc1_eq : demoSc1 =
    { baseline := demoBuf, isCalibrating := false, TH_LOW := 9/400,
      TH_HIGH := 51/2000, smoothedEye := 50421/10000000,
      smoothingFactor := 7/10, closedFrames := 5, openFrames := 0,
      FRAMES_REQUIRED := 5, eyeState := EyeState.CLOSED, closedStartTime := 5,
      refractoryUntil := 0, CLOSED_SECONDS := 6/5, REFRACTORY := 5/2 } := by
  rw [demoSc1, demoPre_eq]
  norm_num [demoBuf, processFrameC, clientSmooth, clientCalib, clientMachine,
    clientAlarm, clientResult, List.replicate, closed_ne_open, open_ne_closed]

lemma demoSc2_eq : demoSc2 =
    { baseline := demoBuf, isCalibrating := false, TH_LOW := 9/400,
      TH_HIGH := 51/2000, smoothedEye := 352947/100000000,
      smoothingFactor := 7/10, closedFrames := 6, openFrames := 0,
      FRAMES_REQUIRED := 5, eyeState := EyeState.CLOSED, closedStartTime := 5,
      refractoryUntil := 0, CLOSED_SECONDS := 6/5, REFRACTORY := 5/2 } := by
  rw [demoSc2, demoSc1_eq]
  norm_num [demoBuf, processFrameC, clientSmooth, clientCalib, clientMachine,
    clientAlarm, clientResult, List.replicate, closed_ne_open, open_ne_closed]

lemma demoSc3_eq : demoSc3 =
    { baseline := demoBuf, isCalibrating := false, TH_LOW := 9/400,
      TH_HIGH := 51/2000, smoothedEye := 2470629/1000000000,
      smoothingFactor := 7/10, closedFrames := 7, openFrames := 0,
      FRAMES_REQUIRED := 5, eyeState := EyeState.CLOSED, closedStartTime := 5,
      refractoryUntil := 19/2, CLOSED_SECONDS := 6/5, REFRACTORY := 5/2 } := by
  rw [demoSc3, demoSc2_eq]
  norm_num [demoBuf, processFrameC, clientSmooth, clientCalib, clientMachine,
    clientAlarm, clientResult, List.replicate, closed_ne_open, open_ne_closed]

lemma demoSc4_eq : demoSc4 =
    { baseline := demoBuf, isCalibrating := false, TH_LOW := 9/400,
      TH_HIGH := 51/2000, smoothedEye := 17294403/10000000000,
      smoothingFactor := 7/10, closedFrames := 8, openFrames := 0,
      FRAMES_REQUIRED := 5, eyeState := EyeState.CLOSED, closedStartTime := 5,
      refractoryUntil := 19/2, CLOSED_SECONDS := 6/5, REFRACTORY := 5/2 } := by
  rw [demoSc4, demoSc3_eq]
  norm_num [demoBuf, processFrameC, clientSmooth, clientCalib, clientMachine,
    clientAlarm, clientResult, List.replicate, closed_ne_open, open_ne_closed]

lemma demoSc5_eq : demoSc5 =
    { baseline := demoBuf, isCalibrating := false, TH_LOW := 9/400,
      TH_HIGH := 51/2000, smoothedEye := 6121060821/100000000000,
      smoothingFactor := 7/10, closedFrames := 0, openFrames := 1,
      FRAMES_REQUIRED := 5, eyeState := EyeState.CLOSED, closedStartTime := 5,
      refractoryUntil := 19/2, CLOSED_SECONDS := 6/5, REFRACTORY := 5/2 } := by
  rw [demoSc5, demoSc4_eq]
  norm_num [demoBuf, processFrameC, clientSmooth, clientCalib, clientMachine,
    clientAlarm, clientResult, List.replicate, closed_ne_open, open_ne_closed]

lemma demoBoundary_eq : (processFrameC demoAlarmed (some 0) (19/2)).1 =
    { detected := true, state := EyeState.CLOSED, eye := 2470629/1000000000,
      TH_LOW := 9/400, TH_HIGH := 51/2000, baseline_ready := true,
      closed_for := 9/2, alarm := false } := by
  rw [demoAlarmed_eq]
  norm_num [demoBuf, processFrameC, clientSmooth, clientCalib, clientMachine,
    clientAlarm, clientResult, List.replicate, closed_ne_open, open_ne_closed]

lemma alarmTimes_append (s : CState) (a b : List (Option ℚ × ℚ)) :
    alarmTimes s (a ++ b) = alarmTimes s a ++ alarmTimes (runFramesC s a) b := by
  induction a generalizing s with
  | nil => simp [alarmTimes, runFramesC]
  | cons x rest ih =>
      obtain ⟨r, t⟩ := x
      simp [alarmTimes, runFramesC, ih, List.append_assoc]

lemma demoAlarmTimes :
    alarmTimes (startCalibrationC initClient) demoRefractoryTrace = [7] := by
  norm_num [demoRefractoryTrace, demoCalibFrames, demoCloseFrames, alarmTimes,
    processFrameC, clientSmooth, clientCalib, clientMachine, clientAlarm,
    clientResult, startCalibrationC, initClient, medianC, List.insertionSort,
    List.orderedInsert, List.replicate, closed_ne_open, open_ne_closed]

lemma demoAlarmed_run :
    runFramesC (startCalibrationC initClient)
      (demoCalibFrames ++ demoCloseFrames ++ [((some 0 : Option ℚ), (7 : ℚ))]) =
      demoAlarmed := by
  rw [runFramesC_append, runFramesC_append]
  rfl

/-! ## Claim theorems -/

/-- C8: a `processFrame` call with no face detected returns `detected =
false` and leaves the whole tracker state (eye state, thresholds, smoothed
signal, buffer, counters, closed timer) unchanged, and repeated such calls
at any times produce the identical result with `detected` always false. -/
theorem c8_noface_noop (s : CState) (t t' : ℚ) :
    (processFrameC s none t).2 = s ∧
    (processFrameC s none t).1.detected = false ∧
    processFrameC s none t = processFrameC s none t' :=
  ⟨rfl, rfl, rfl⟩

/-- C6 (amended): the server `reset_baseline` clears the buffer,
invalidates both thresholds, forces OPEN and clears the closed-start; the
client `startCalibration` only clears the buffer and raises the
calibration flag, leaving thresholds, eye state and closed-start as they
were. -/
theorem c6_reset_amended (s : CState) (s2 : SState) :
    startCalibrationC s = { s with baseline := [], isCalibrating := true } ∧
    resetBaselineS s2 =
      { s2 with baseline_buffer := [], TH_LOW := none, TH_HIGH := none,
                current_state := EyeState.OPEN, closed_start := none } :=
  ⟨rfl, rfl⟩

/-- C6 counterexample: on a reachable client state that is CLOSED with
closed-start 5 and calibrated thresholds, `startCalibration` leaves the
eye state CLOSED, the closed-start at 5 and both thresholds intact, so the
claimed forcing to OPEN and clearing of `closedSince` do not happen. -/
theorem c6_counterexample :
    demoClosed.eyeState = EyeState.CLOSED ∧
    (startCalibrationC demoClosed).eyeState = EyeState.CLOSED ∧
    (startCalibrationC demoClosed).closedStartTime = 5 ∧
    (startCalibrationC demoClosed).TH_LOW = 9/400 ∧
    (startCalibrationC demoClosed).TH_HIGH = 51/2000 := by
  rw [demoClosed_eq]
  exact ⟨rfl, rfl, rfl, rfl, rfl⟩

/-- C7 (amended): the server tracker takes its very first detected sample
as the smoothed value and applies the exponential moving average
afterwards; the client tracker seeds the smoothed signal at 0.03 and
applies the moving average on every call, the first one included. -/
theorem c7_smoothing_amended :
    (∀ (s : SState) (raw now : ℚ), s.smoothed_eye = none →
      (processFrameS s (some raw) now).2.smoothed_eye = some raw) ∧
    (∀ (s : SState) (p raw now : ℚ), s.smoothed_eye = some p →
      (processFrameS s (some raw) now).2.smoothed_eye =
        some (s.SMOOTHING_FACTOR * p + (1 - s.SMOOTHING_FACTOR) * raw)) ∧
    (∀ (s : CState) (raw now : ℚ),
      (processFrameC s (some raw) now).2.smoothedEye =
        s.smoothingFactor * s.smoothedEye + (1 - s.smoothingFactor) * raw) ∧
    initClient.smoothedEye = 3/100 := by
  refine ⟨?_, ?_, ?_, rfl⟩
  · intro s raw now h
    rw [processFrameS_smoothed]
    simp [serverSmooth, h]
  · intro s p raw now h
    rw [processFrameS_smoothed]
    simp [serverSmooth, h]
  · intro s raw now
    rw [processFrameC_smoothed]
    rfl

/-- C7 witness: the fresh server detector really maps its first sample to
itself. -/
theorem c7_witness :
    initServer.smoothed_eye = none ∧
    (processFrameS initServer (some (3/10)) 0).2.smoothed_eye = some (3/10) :=
  ⟨rfl, c7_smoothing_amended.1 initServer (3/10) 0 rfl⟩

/-- C7 counterexample: on the client's very first face-detected call with
raw EAR 0.3, the smoothed signal is 0.7*0.03 + 0.3*0.3 = 0.111, not the
raw value 0.3 the claim asserts. -/
theorem c7_counterexample :
    (processFrameC initClient (some (3/10)) 0).2.smoothedEye = 111/1000 ∧
    ((111 : ℚ)/1000) ≠ 3/10 := by
  constructor
  · rw [processFrameC_smoothed]
    norm_num [clientSmooth, initClient]
  · norm_num

/-- C4: on a calibrated client tracker, a face-detected call whose updated
smoothed signal lies strictly inside the (TH_LOW, TH_HIGH) dead band
changes neither the eye state nor either streak counter, whatever their
prior values. -/
theorem c4_dead_band (s : CState) (raw now : ℚ)
    (hcal : s.isCalibrating = false)
    (hlo : s.TH_LOW < clientSmooth s raw)
    (hhi : clientSmooth s raw < s.TH_HIGH) :
    (processFrameC s (some raw) now).2.eyeState = s.eyeState ∧
    (processFrameC s (some raw) now).2.closedFrames = s.closedFrames ∧
    (processFrameC s (some raw) now).2.openFrames = s.openFrames := by
  rw [processFrameC_some, clientCalib_of_not _ hcal]
  have hmach : clientMachine (clientSmooth s raw) now
      { s with smoothedEye := clientSmooth s raw } =
      { s with smoothedEye := clientSmooth s raw } := by
    apply clientMachine_mid
    · exact not_lt.2 (le_of_lt hlo)
    · exact not_lt.2 (le_of_lt hhi)
  rw [hmach]
  obtain ⟨-, -, -, -, -, -, a7, a8, -, a10, -⟩ :=
    clientAlarm_snd_proj (clientSmooth s raw) now
      { s with smoothedEye := clientSmooth s raw }
  exact ⟨a10, a7, a8⟩

/-- C4 witness: the calibrated demonstration state with raw EAR 0.01 lands
at smoothed 0.024, strictly inside (0.0225, 0.0255), and changes
nothing. -/
theorem c4_witness :
    demoCalibrated.isCalibrating = false ∧
    demoCalibrated.TH_LOW < clientSmooth demoCalibrated (1/100) ∧
    clientSmooth demoCalibrated (1/100) < demoCalibrated.TH_HIGH ∧
    ((processFrameC demoCalibrated (some (1/100)) 1).2.eyeState =
        demoCalibrated.eyeState ∧
      (processFrameC demoCalibrated (some (1/100)) 1).2.closedFrames =
        demoCalibrated.closedFrames ∧
      (processFrameC demoCalibrated (some (1/100)) 1).2.openFrames =
        demoCalibrated.openFrames) :=
  ⟨by rw [demoCalibrated_eq], by rw [demoCalibrated_eq]; norm_num [clientSmooth],
   by rw [demoCalibrated_eq]; norm_num [clientSmooth],
   c4_dead_band demoCalibrated (1/100) 1 (by rw [demoCalibrated_eq])
     (by rw [demoCalibrated_eq]; norm_num [clientSmooth])
     (by rw [demoCalibrated_eq]; norm_num [clientSmooth])⟩

/-- C5: a face-detected server call made while thresholds are not yet
calibrated, and which does not itself fill the calibration buffer, returns
`detected = true`, `baselineReady = false`, `alarm = false`,
`closedFor = 0`, and leaves the discrete eye state unchanged. -/
theorem c5_uncalibrated_hold (s : SState) (raw now : ℚ)
    (hth : s.TH_LOW = none)
    (hlen : s.baseline_buffer.length + 1 < s.BASELINE_FRAMES) :
    (processFrameS s (some raw) now).1.detected = true ∧
    (processFrameS s (some raw) now).1.baseline_ready = false ∧
    (processFrameS s (some raw) now).1.alarm = false ∧
    (processFrameS s (some raw) now).1.closed_for = 0 ∧
    (processFrameS s (some raw) now).2.current_state = s.current_state := by
  rw [processFrameS_some_uncal s raw now hth]
  have hnot : ¬ ((s.baseline_buffer ++ [serverSmooth s raw]).length ≥
      s.BASELINE_FRAMES) := by
    rw [List.length_append]
    simp only [List.length_singleton]
    omega
  unfold serverCalib
  rw [if_neg hnot]
  simp [getCurrentState, hth]

/-- C5 witness: the fresh server detector on its first sample. -/
theorem c5_witness :
    initServer.TH_LOW = none ∧
    initServer.baseline_buffer.length + 1 < initServer.BASELINE_FRAMES ∧
    ((processFrameS initServer (some (3/10)) 0).1.detected = true ∧
      (processFrameS initServer (some (3/10)) 0).1.baseline_ready = false ∧
      (processFrameS initServer (some (3/10)) 0).1.alarm = false ∧
      (processFrameS initServer (some (3/10)) 0).1.closed_for = 0 ∧
      (processFrameS initServer (some (3/10)) 0).2.current_state =
        initServer.current_state) :=
  ⟨rfl, by norm_num [initServer],
   c5_uncalibrated_hold initServer (3/10) 0 rfl (by norm_num [initServer])⟩

/-- C10: with the client tracker CLOSED and a positive recorded
closed-start, a no-face call reports `closed_for = 0` while leaving the
whole state (the closed-start included) untouched, and a following
face-detected call that stays CLOSED reports the duration measured from
the original closed-start. -/
theorem c10_noface_keeps_timer (s : CState) (t t' raw : ℚ)
    (hst : s.eyeState = EyeState.CLOSED)
    (hcs : s.closedStartTime > 0) :
    (processFrameC s none t).1.closed_for = 0 ∧
    (processFrameC s none t).1.detected = false ∧
    (processFrameC s none t).2 = s ∧
    ((processFrameC s (some raw) t').2.eyeState = EyeState.CLOSED →
      (processFrameC s (some raw) t').1.closed_for = t' - s.closedStartTime) := by
  refine ⟨rfl, rfl, rfl, ?_⟩
  intro hstill
  rw [processFrameC_some] at hstill ⊢
  obtain ⟨-, -, -, cey, ccs, -, -, -, -, -⟩ :=
    clientCalib_proj s (clientSmooth s raw)
  obtain ⟨-, -, -, -, -, -, -, -, -, aeye, -, -, -⟩ :=
    clientAlarm_snd_proj (clientSmooth s raw) t'
      (clientMachine (clientSmooth s raw) t' (clientCalib s (clientSmooth s raw)))
  have hmc : (clientMachine (clientSmooth s raw) t'
      (clientCalib s (clientSmooth s raw))).eyeState = EyeState.CLOSED := by
    rw [← aeye]; exact hstill
  have hueye : (clientCalib s (clientSmooth s raw)).eyeState = EyeState.CLOSED := by
    rw [cey]; exact hst
  rcases clientMachine_from_closed (clientSmooth s raw) t'
      (clientCalib s (clientSmooth s raw)) hueye with ⟨-, hkeep⟩ | hopen
  · rw [clientAlarm_closed_for]
    have hcseq : (clientMachine (clientSmooth s raw) t'
        (clientCalib s (clientSmooth s raw))).closedStartTime =
        s.closedStartTime := by rw [hkeep, ccs]
    rw [if_pos ⟨hmc, by rw [hcseq]; exact hcs⟩, hcseq]
  · rw [hopen] at hmc
    cases hmc

/-- C10 witness: the demonstration CLOSED state, a no-face frame at time 6
and a face frame at time 7 that stays CLOSED. -/
theorem c10_witness :
    demoClosed.eyeState = EyeState.CLOSED ∧
    demoClosed.closedStartTime > 0 ∧
    ((processFrameC demoClosed none 6).1.closed_for = 0 ∧
      (processFrameC demoClosed none 6).1.detected = false ∧
      (processFrameC demoClosed none 6).2 = demoClosed ∧
      ((processFrameC demoClosed (some 0) 7).2.eyeState = EyeState.CLOSED →
        (processFrameC demoClosed (some 0) 7).1.closed_for =
          7 - demoClosed.closedStartTime)) :=
  ⟨by rw [demoClosed_eq], by rw [demoClosed_eq]; norm_num,
   c10_noface_keeps_timer demoClosed 6 7 0 (by rw [demoClosed_eq])
     (by rw [demoClosed_eq]; norm_num)⟩

/-- C1 counterexample: from a freshly calibrated client tracker, an alarm
fires at t = 7 only (alarm times of the whole run are exactly [7]); at the
frame processed at t = 9.5 the state is CLOSED, the reported closed
duration 4.5 reaches `closedSeconds = 1.2`, and now minus the last alarm
time equals `refractorySeconds = 2.5` exactly, yet the call returns
`alarm = false` — the claimed "now - lastAlarm ≥ refractorySeconds fires"
biconditional fails at the boundary (the code demands a strict
inequality). -/
theorem c1_counterexample :
    alarmTimes (startCalibrationC initClient) demoRefractoryTrace = [7] ∧
    runFramesC (startCalibrationC initClient)
      (demoCalibFrames ++ demoCloseFrames ++ [((some 0 : Option ℚ), (7 : ℚ))]) =
      demoAlarmed ∧
    (processFrameC demoAlarmed (some 0) (19/2)).1.state = EyeState.CLOSED ∧
    (processFrameC demoAlarmed (some 0) (19/2)).1.closed_for = 9/2 ∧
    ((9 : ℚ)/2) ≥ demoAlarmed.CLOSED_SECONDS ∧
    ((19 : ℚ)/2 - 7) ≥ demoAlarmed.REFRACTORY ∧
    (processFrameC demoAlarmed (some 0) (19/2)).1.alarm = false := by
  refine ⟨demoAlarmTimes, demoAlarmed_run, ?_, ?_, ?_, ?_, ?_⟩
  · rw [demoBoundary_eq]
  · rw [demoBoundary_eq]
  · rw [demoAlarmed_eq]; norm_num
  · rw [demoAlarmed_eq]; norm_num
  · rw [demoBoundary_eq]

/-- C2 counterexample: a reachable calibrated client tracker in state OPEN
with a closed streak of 4 becomes CLOSED already on the first of four
below-threshold frames (and is still CLOSED after the fifth,
above-threshold frame), so four below-frames followed by one above-frame
can very well yield CLOSED when the prior streak is nonzero. -/
theorem c2_counterexample :
    demoPre.isCalibrating = false ∧
    demoPre.eyeState = EyeState.OPEN ∧
    demoPre.FRAMES_REQUIRED = 5 ∧
    demoPre.TH_LOW < demoPre.TH_HIGH ∧
    demoSc1.smoothedEye < demoPre.TH_LOW ∧
    demoSc2.smoothedEye < demoPre.TH_LOW ∧
    demoSc3.smoothedEye < demoPre.TH_LOW ∧
    demoSc4.smoothedEye < demoPre.TH_LOW ∧
    demoSc5.smoothedEye > demoPre.TH_HIGH ∧
    demoSc1.eyeState = EyeState.CLOSED ∧
    demoSc5.eyeState = EyeState.CLOSED := by
  rw [demoPre_eq, demoSc1_eq, demoSc2_eq, demoSc3_eq, demoSc4_eq, demoSc5_eq]
  norm_num

lemma processFrameC_alarm_iff (s : CState) (raw now : ℚ) :
    ((processFrameC s (some raw) now).1.alarm = true ↔
      ((processFrameC s (some raw) now).2.eyeState = EyeState.CLOSED ∧
        (processFrameC s (some raw) now).2.closedStartTime > 0 ∧
        now - (processFrameC s (some raw) now).2.closedStartTime ≥
          s.CLOSED_SECONDS ∧
        now > s.refractoryUntil)) := by
  rw [processFrameC_some]
  obtain ⟨cc1, cc2, cc3, cc4, cc5, cc6, cc7, cc8, cc9, cc10⟩ :=
    clientCalib_proj s (clientSmooth s raw)
  obtain ⟨m1, m2, m3, m4, m5, m6, m7, m8, m9, m10⟩ :=
    clientMachine_proj (clientSmooth s raw) now (clientCalib s (clientSmooth s raw))
  obtain ⟨a1, a2, a3, a4, a5, a6, a7, a8, a9, a10, a11, a12, a13⟩ :=
    clientAlarm_snd_proj (clientSmooth s raw) now
      (clientMachine (clientSmooth s raw) now (clientCalib s (clientSmooth s raw)))
  rw [clientAlarm_alarm_iff, a10, a11]
  have hCS : (clientMachine (clientSmooth s raw) now
      (clientCalib s (clientSmooth s raw))).CLOSED_SECONDS = s.CLOSED_SECONDS := by
    rw [m9, cc7]
  have hrU : (clientMachine (clientSmooth s raw) now
      (clientCalib s (clientSmooth s raw))).refractoryUntil = s.refractoryUntil := by
    rw [m8, cc6]
  rw [hCS, hrU]

lemma processFrameC_rU_cases (s : CState) (i : Option ℚ) (now : ℚ) :
    ((processFrameC s i now).1.alarm = true ∧
      (processFrameC s i now).2.refractoryUntil = now + s.REFRACTORY ∧
      s.refractoryUntil < now) ∨
    ((processFrameC s i now).1.alarm = false ∧
      (processFrameC s i now).2.refractoryUntil = s.refractoryUntil) := by
  match i with
  | none => exact Or.inr ⟨rfl, rfl⟩
  | some raw =>
      obtain ⟨cc1, cc2, cc3, cc4, cc5, cc6, cc7, cc8, cc9, cc10⟩ :=
        clientCalib_proj s (clientSmooth s raw)
      obtain ⟨m1, m2, m3, m4, m5, m6, m7, m8, m9, m10⟩ :=
        clientMachine_proj (clientSmooth s raw) now
          (clientCalib s (clientSmooth s raw))
      have hrUu : (clientMachine (clientSmooth s raw) now
          (clientCalib s (clientSmooth s raw))).refractoryUntil =
          s.refractoryUntil := by rw [m8, cc6]
      have hRu : (clientMachine (clientSmooth s raw) now
          (clientCalib s (clientSmooth s raw))).REFRACTORY = s.REFRACTORY := by
        rw [m10, cc8]
      rw [processFrameC_some]
      rcases clientAlarm_rU (clientSmooth s raw) now
          (clientMachine (clientSmooth s raw) now
            (clientCalib s (clientSmooth s raw))) with ⟨ha, hr⟩ | ⟨ha, hr⟩
      · left
        refine ⟨ha, by rw [hr, hRu], ?_⟩
        have hcond := (clientAlarm_alarm_iff (clientSmooth s raw) now
          (clientMachine (clientSmooth s raw) now
            (clientCalib s (clientSmooth s raw)))).1 ha
        have := hcond.2.2.2
        rw [hrUu] at this
        exact this
      · exact Or.inr ⟨ha, by rw [hr, hrUu]⟩

lemma alarmTimes_sparse (R : ℚ) (hR : 0 ≤ R) :
    ∀ (inputs : List (Option ℚ × ℚ)) (s : CState), s.REFRACTORY = R →
      (∀ t ∈ alarmTimes s inputs, s.refractoryUntil < t) ∧
      List.Pairwise (fun a b => a + R < b) (alarmTimes s inputs) := by
  intro inputs
  induction inputs with
  | nil => intro s hs; simp [alarmTimes]
  | cons x rest ih =>
      obtain ⟨r, t⟩ := x
      intro s hsR
      have hpre : (processFrameC s r t).2.REFRACTORY = R := by
        rw [(processFrameC_config s r t).1, hsR]
      obtain ⟨ih1, ih2⟩ := ih (processFrameC s r t).2 hpre
      rcases processFrameC_rU_cases s r t with ⟨ha, hru, hlt⟩ | ⟨ha, hru⟩
      · have htail : ∀ u ∈ alarmTimes (processFrameC s r t).2 rest, t + R < u := by
          intro u hu
          have := ih1 u hu
          rw [hru, hsR] at this
          exact this
        constructor
        · intro u hu
          simp only [alarmTimes, ha, if_pos, List.singleton_append,
            List.mem_cons] at hu
          rcases hu with rfl | hu
          · exact hlt
          · have := htail u hu
            linarith
        · simp only [alarmTimes, ha, if_pos, List.singleton_append]
          exact List.pairwise_cons.2 ⟨htail, ih2⟩
      · constructor
        · intro u hu
          simp only [alarmTimes, ha, if_neg, Bool.false_eq_true,
            List.nil_append] at hu
          have := ih1 u hu
          rw [hru] at this
          exact this
        · simp only [alarmTimes, ha, if_neg, Bool.false_eq_true,
            List.nil_append]
          exact ih2

/-- C1 (amended): with a nonnegative refractory period, the alarm times of
any client run are strictly more than `refractorySeconds` apart (so two
alarms never fall within the refractory window); a face-detected call
fires exactly when the post-transition state is CLOSED with a positive
closed-start, the closed duration has reached `closedSeconds`, and `now`
lies strictly past the recorded refractory deadline (initially 0) — at the
exact boundary `now - lastAlarm = refractorySeconds` no alarm fires; a
firing call moves the deadline to `now + refractorySeconds`, and a no-face
call never fires. -/
theorem c1_refractory_amended :
    (∀ (s0 : CState) (inputs : List (Option ℚ × ℚ)), 0 ≤ s0.REFRACTORY →
      List.Pairwise (fun a b => a + s0.REFRACTORY < b) (alarmTimes s0 inputs)) ∧
    (∀ (s : CState) (raw now : ℚ),
      ((processFrameC s (some raw) now).1.alarm = true ↔
        ((processFrameC s (some raw) now).2.eyeState = EyeState.CLOSED ∧
          (processFrameC s (some raw) now).2.closedStartTime > 0 ∧
          now - (processFrameC s (some raw) now).2.closedStartTime ≥
            s.CLOSED_SECONDS ∧
          now > s.refractoryUntil))) ∧
    (∀ (s : CState) (raw now : ℚ),
      (processFrameC s (some raw) now).1.alarm = true →
      (processFrameC s (some raw) now).2.refractoryUntil =
        now + s.REFRACTORY) ∧
    (∀ (s : CState) (now : ℚ), (processFrameC s none now).1.alarm = false) := by
  refine ⟨?_, processFrameC_alarm_iff, ?_, fun s now => rfl⟩
  · intro s0 inputs hR
    exact (alarmTimes_sparse s0.REFRACTORY hR inputs s0 rfl).2
  · intro s raw now ha
    rcases processFrameC_rU_cases s (some raw) now with ⟨-, hru, -⟩ | ⟨hfa, -⟩
    · exact hru
    · rw [ha] at hfa
      cases hfa

/-- C1 witness: the demonstration run satisfies the sparsity property (its
single alarm at time 7 is trivially sparse). -/
theorem c1_witness :
    0 ≤ (startCalibrationC initClient).REFRACTORY ∧
    List.Pairwise
      (fun a b => a + (startCalibrationC initClient).REFRACTORY < b)
      (alarmTimes (startCalibrationC initClient) demoRefractoryTrace) :=
  ⟨by norm_num [startCalibrationC, initClient],
   c1_refractory_amended.1 (startCalibrationC initClient) demoRefractoryTrace
     (by norm_num [startCalibrationC, initClient])⟩

lemma stepBelowOpen (s : CState) (raw now : ℚ)
    (hcal : s.isCalibrating = false)
    (hopen : s.eyeState = EyeState.OPEN)
    (hlt : s.closedFrames + 1 < s.FRAMES_REQUIRED)
    (hlow : (processFrameC s (some raw) now).2.smoothedEye < s.TH_LOW) :
    (processFrameC s (some raw) now).2.eyeState = EyeState.OPEN ∧
    (processFrameC s (some raw) now).2.closedFrames = s.closedFrames + 1 ∧
    (processFrameC s (some raw) now).2.isCalibrating = false ∧
    (processFrameC s (some raw) now).2.TH_LOW = s.TH_LOW ∧
    (processFrameC s (some raw) now).2.TH_HIGH = s.TH_HIGH ∧
    (processFrameC s (some raw) now).2.FRAMES_REQUIRED = s.FRAMES_REQUIRED := by
  obtain ⟨n1, n2, n3, n4, n5, n6, n7, n8, n9⟩ := processFrameC_noCalib s raw now hcal
  have hsm : clientSmooth s raw < s.TH_LOW := by rw [← n5]; exact hlow
  refine ⟨?_, ?_, n2, n3, n4, n7⟩ <;>
  · rw [processFrameC_some, clientCalib_of_not _ hcal]
    obtain ⟨-, -, -, -, -, -, a7, -, -, a10, -⟩ :=
      clientAlarm_snd_proj (clientSmooth s raw) now
        (clientMachine (clientSmooth s raw) now { s with smoothedEye := clientSmooth s raw })
    obtain ⟨hms, hmc⟩ := clientMachine_low_stay_open
      (show clientSmooth s raw < ({ s with smoothedEye := clientSmooth s raw } : CState).TH_LOW from hsm)
      (show ({ s with smoothedEye := clientSmooth s raw } : CState).closedFrames + 1 <
        ({ s with smoothedEye := clientSmooth s raw } : CState).FRAMES_REQUIRED from hlt)
    first
      | (rw [a10, hms]; exact hopen)
      | (rw [a7, hmc])

lemma stepHighOpen (s : CState) (raw now : ℚ)
    (hcal : s.isCalibrating = false)
    (hopen : s.eyeState = EyeState.OPEN)
    (hth : s.TH_LOW ≤ s.TH_HIGH)
    (hhigh : (processFrameC s (some raw) now).2.smoothedEye > s.TH_HIGH) :
    (processFrameC s (some raw) now).2.eyeState = EyeState.OPEN := by
  obtain ⟨n1, n2, n3, n4, n5, n6, n7, n8, n9⟩ := processFrameC_noCalib s raw now hcal
  have hsm : clientSmooth s raw > s.TH_HIGH := by rw [← n5]; exact hhigh
  rw [processFrameC_some, clientCalib_of_not _ hcal]
  obtain ⟨-, -, -, -, -, -, -, -, -, a10, -⟩ :=
    clientAlarm_snd_proj (clientSmooth s raw) now
      (clientMachine (clientSmooth s raw) now { s with smoothedEye := clientSmooth s raw })
  rw [a10]
  exact clientMachine_high_from_open
    (show ({ s with smoothedEye := clientSmooth s raw } : CState).TH_LOW ≤
      ({ s with smoothedEye := clientSmooth s raw } : CState).TH_HIGH from hth)
    hsm hopen

/-- C2 (amended): a client tracker in state OPEN transitions to CLOSED on a
face frame only if the incremented closed streak reaches
`framesRequiredToConfirm`; consequently, with `framesRequiredToConfirm = 5`
and the closed streak initially zero, four below-TH_LOW frames followed by
one above-TH_HIGH frame leave the state OPEN at all five frames.  (The
prior streak matters: a tracker already carrying a streak of 4 closes on
the first below frame, and the server variant closes on the very first
below frame regardless.) -/
theorem c2_debounce_amended :
    (∀ (s : CState) (raw now : ℚ), s.eyeState = EyeState.OPEN →
      (processFrameC s (some raw) now).2.eyeState = EyeState.CLOSED →
      s.closedFrames + 1 ≥ s.FRAMES_REQUIRED ∧
        (processFrameC s (some raw) now).2.closedFrames = s.closedFrames + 1) ∧
    (∀ (s s1 s2 s3 s4 s5 : CState) (r1 r2 r3 r4 r5 t1 t2 t3 t4 t5 : ℚ),
      s.isCalibrating = false → s.eyeState = EyeState.OPEN →
      s.closedFrames = 0 → s.FRAMES_REQUIRED = 5 → s.TH_LOW ≤ s.TH_HIGH →
      s1 = (processFrameC s (some r1) t1).2 →
      s2 = (processFrameC s1 (some r2) t2).2 →
      s3 = (processFrameC s2 (some r3) t3).2 →
      s4 = (processFrameC s3 (some r4) t4).2 →
      s5 = (processFrameC s4 (some r5) t5).2 →
      s1.smoothedEye < s.TH_LOW → s2.smoothedEye < s.TH_LOW →
      s3.smoothedEye < s.TH_LOW → s4.smoothedEye < s.TH_LOW →
      s5.smoothedEye > s.TH_HIGH →
      (s1.eyeState = EyeState.OPEN ∧ s2.eyeState = EyeState.OPEN ∧
        s3.eyeState = EyeState.OPEN ∧ s4.eyeState = EyeState.OPEN ∧
        s5.eyeState = EyeState.OPEN)) := by
  constructor
  · intro s raw now hopen hclosed
    rw [processFrameC_some] at hclosed ⊢
    obtain ⟨cc1, cc2, cc3, cc4, -⟩ := clientCalib_proj s (clientSmooth s raw)
    obtain ⟨-, -, -, -, -, -, a7, -, -, a10, -⟩ :=
      clientAlarm_snd_proj (clientSmooth s raw) now
        (clientMachine (clientSmooth s raw) now (clientCalib s (clientSmooth s raw)))
    have hmc : (clientMachine (clientSmooth s raw) now
        (clientCalib s (clientSmooth s raw))).eyeState = EyeState.CLOSED := by
      rw [← a10]; exact hclosed
    have hueye : (clientCalib s (clientSmooth s raw)).eyeState = EyeState.OPEN := by
      rw [cc4]; exact hopen
    obtain ⟨-, hge, hcf, -⟩ := clientMachine_open_to_closed hueye hmc
    rw [cc1, cc3] at hge
    refine ⟨hge, ?_⟩
    rw [a7, hcf, cc1]
  · intro s s1 s2 s3 s4 s5 r1 r2 r3 r4 r5 t1 t2 t3 t4 t5
      hcal hopen hcf0 hfr hth he1 he2 he3 he4 he5 h1 h2 h3 h4 h5
    subst he1 he2 he3 he4 he5
    obtain ⟨w1open, w1cf, w1cal, w1lo, w1hi, w1fr⟩ :=
      stepBelowOpen s r1 t1 hcal hopen (by omega) h1
    rw [← w1lo] at h2
    obtain ⟨w2open, w2cf, w2cal, w2lo, w2hi, w2fr⟩ :=
      stepBelowOpen _ r2 t2 w1cal w1open (by omega) h2
    rw [← w1lo, ← w2lo] at h3
    obtain ⟨w3open, w3cf, w3cal, w3lo, w3hi, w3fr⟩ :=
      stepBelowOpen _ r3 t3 w2cal w2open (by omega) h3
    rw [← w1lo, ← w2lo, ← w3lo] at h4
    obtain ⟨w4open, w4cf, w4cal, w4lo, w4hi, w4fr⟩ :=
      stepBelowOpen _ r4 t4 w3cal w3open (by omega) h4
    have hth4 : (processFrameC
        (processFrameC
          (processFrameC (processFrameC s (some r1) t1).2 (some r2) t2).2
          (some r3) t3).2 (some r4) t4).2.TH_LOW ≤
        (processFrameC
          (processFrameC
            (processFrameC (processFrameC s (some r1) t1).2 (some r2) t2).2
            (some r3) t3).2 (some r4) t4).2.TH_HIGH := by
      rw [w4lo, w3lo, w2lo, w1lo, w4hi, w3hi, w2hi, w1hi]
      exact hth
    rw [← w1hi, ← w2hi, ← w3hi, ← w4hi] at h5
    have w5open := stepHighOpen _ r5 t5 w4cal w4open hth4 h5
    exact ⟨w1open, w2open, w3open, w4open, w5open⟩

/-- The five states traversed by the C2 witness scenario: four below
frames then one above frame, from the freshly calibrated tracker. -/
def demoW1 : CState := (processFrameC demoCalibrated (some 0) 1).2

def demoW2 : CState := (processFrameC demoW1 (some 0) 2).2

def demoW3 : CState := (processFrameC demoW2 (some 0) 3).2

def demoW4 : CState := (processFrameC demoW3 (some 0) 4).2

def demoW5 : CState := (processFrameC demoW4 (some (2/10)) 5).2

lemma demoW1_eq : demoW1 =
    { baseline := demoBuf, isCalibrating := false, TH_LOW := 9/400,
      TH_HIGH := 51/2000, smoothedEye := 21/1000, smoothingFactor := 7/10,
      closedFrames := 1, openFrames := 0, FRAMES_REQUIRED := 5,
      eyeState := EyeState.OPEN, closedStartTime := 0, refractoryUntil := 0,
      CLOSED_SECONDS := 6/5, REFRACTORY := 5/2 } := by
  rw [demoW1, demoCalibrated_eq]
  norm_num [demoBuf, processFrameC, clientSmooth, clientCalib, clientMachine,
    clientAlarm, clientResult, List.replicate, closed_ne_open, open_ne_closed]

lemma demoW2_eq : demoW2 =
    { baseline := demoBuf, isCalibrating := false, TH_LOW := 9/400,
      TH_HIGH := 51/2000, smoothedEye := 147/10000, smoothingFactor := 7/10,
      closedFrames := 2, openFrames := 0, FRAMES_REQUIRED := 5,
      eyeState := EyeState.OPEN, closedStartTime := 0, refractoryUntil := 0,
      CLOSED_SECONDS := 6/5, REFRACTORY := 5/2 } := by
  rw [demoW2, demoW1_eq]
  norm_num [demoBuf, processFrameC, clientSmooth, clientCalib, clientMachine,
    clientAlarm, clientResult, List.replicate, closed_ne_open, open_ne_closed]

lemma demoW3_eq : demoW3 =
    { baseline := demoBuf, isCalibrating := false, TH_LOW := 9/400,
      TH_HIGH := 51/2000, smoothedEye := 1029/100000, smoothingFactor := 7/10,
      closedFrames := 3, openFrames := 0, FRAMES_REQUIRED := 5,
      eyeState := EyeState.OPEN, closedStartTime := 0, refractoryUntil := 0,
      CLOSED_SECONDS := 6/5, REFRACTORY := 5/2 } := by
  rw [demoW3, demoW2_eq]
  norm_num [demoBuf, processFrameC, clientSmooth, clientCalib, clientMachine,
    clientAlarm, clientResult, List.replicate, closed_ne_open, open_ne_closed]

lemma demoW4_eq : demoW4 =
    { baseline := demoBuf, isCalibrating := false, TH_LOW := 9/400,
      TH_HIGH := 51/2000, smoothedEye := 7203/1000000, smoothingFactor := 7/10,
      closedFrames := 4, openFrames := 0, FRAMES_REQUIRED := 5,
      eyeState := EyeState.OPEN, closedStartTime := 0, refractoryUntil := 0,
      CLOSED_SECONDS := 6/5, REFRACTORY := 5/2 } := by
  rw [demoW4, demoW3_eq]
  norm_num [demoBuf, processFrameC, clientSmooth, clientCalib, clientMachine,
    clientAlarm, clientResult, List.replicate, closed_ne_open, open_ne_closed]

lemma demoW5_eq : demoW5 =
    { baseline := demoBuf, isCalibrating := false, TH_LOW := 9/400,
      TH_HIGH := 51/2000, smoothedEye := 650421/10000000,
      smoothingFactor := 7/10, closedFrames := 0, openFrames := 1,
      FRAMES_REQUIRED := 5, eyeState := EyeState.OPEN, closedStartTime := 0,
      refractoryUntil := 0, CLOSED_SECONDS := 6/5, REFRACTORY := 5/2 } := by
  rw [demoW5, demoW4_eq]
  norm_num [demoBuf, processFrameC, clientSmooth, clientCalib, clientMachine,
    clientAlarm, clientResult, List.replicate, closed_ne_open, open_ne_closed]

/-- C2 witness: the freshly calibrated tracker with zero streak really
stays OPEN through four below frames and one above frame. -/
theorem c2_witness :
    demoCalibrated.isCalibrating = false ∧
    demoCalibrated.eyeState = EyeState.OPEN ∧
    demoCalibrated.closedFrames = 0 ∧
    demoCalibrated.FRAMES_REQUIRED = 5 ∧
    demoCalibrated.TH_LOW ≤ demoCalibrated.TH_HIGH ∧
    demoW1.smoothedEye < demoCalibrated.TH_LOW ∧
    demoW5.smoothedEye > demoCalibrated.TH_HIGH ∧
    (demoW1.eyeState = EyeState.OPEN ∧ demoW2.eyeState = EyeState.OPEN ∧
      demoW3.eyeState = EyeState.OPEN ∧ demoW4.eyeState = EyeState.OPEN ∧
      demoW5.eyeState = EyeState.OPEN) :=
  ⟨by rw [demoCalibrated_eq], by rw [demoCalibrated_eq], by rw [demoCalibrated_eq],
   by rw [demoCalibrated_eq], by rw [demoCalibrated_eq]; norm_num,
   by rw [demoW1_eq, demoCalibrated_eq]; norm_num,
   by rw [demoW5_eq, demoCalibrated_eq]; norm_num,
   c2_debounce_amended.2 demoCalibrated demoW1 demoW2 demoW3 demoW4 demoW5
     0 0 0 0 (2/10) 1 2 3 4 5
     (by rw [demoCalibrated_eq]) (by rw [demoCalibrated_eq])
     (by rw [demoCalibrated_eq]) (by rw [demoCalibrated_eq])
     (by rw [demoCalibrated_eq]; norm_num)
     rfl rfl rfl rfl rfl
     (by rw [demoW1_eq, demoCalibrated_eq]; norm_num)
     (by rw [demoW2_eq, demoCalibrated_eq]; norm_num)
     (by rw [demoW3_eq, demoCalibrated_eq]; norm_num)
     (by rw [demoW4_eq, demoCalibrated_eq]; norm_num)
     (by rw [demoW5_eq, demoCalibrated_eq]; norm_num)⟩

lemma sorted_replicate (n : ℕ) (v : ℚ) :
    List.Sorted (· ≤ ·) (List.replicate n v) := by
  induction n with
  | zero => simp
  | succ k ih =>
      rw [List.replicate_succ]
      rw [List.sorted_cons]
      refine ⟨?_, ih⟩
      intro b hb
      rw [List.eq_of_mem_replicate hb]

lemma getD_replicate (n i : ℕ) (v : ℚ) (h : i < n) :
    (List.replicate n v).getD i 0 = v := by
  have hl : i < (List.replicate n v).length := by
    rw [List.length_replicate]; exact h
  rw [List.getD_eq_getElem _ _ hl]
  exact List.eq_of_mem_replicate (List.getElem_mem hl)

lemma medianS_replicate60 (v : ℚ) : medianS (List.replicate 60 v) = v := by
  unfold medianS
  rw [(sorted_replicate 60 v).insertionSort_eq, List.length_replicate]
  have h60 : ¬ ((60 : ℕ) % 2 = 1) := by norm_num
  rw [if_neg h60]
  have h29 := getD_replicate 60 29 v (by norm_num)
  have h30 := getD_replicate 60 30 v (by norm_num)
  norm_num [h29, h30]

lemma serverSmooth_const (s : SState) (v : ℚ)
    (h : s.smoothed_eye = none ∨ s.smoothed_eye = some v) :
    serverSmooth s v = v := by
  rcases h with h | h
  · simp [serverSmooth, h]
  · simp [serverSmooth, h]; ring

lemma serverCalib_nofill (s : SState) (sm : ℚ)
    (h : s.baseline_buffer.length + 1 < s.BASELINE_FRAMES) :
    serverCalib s sm =
      { s with baseline_buffer := s.baseline_buffer ++ [sm],
               smoothed_eye := some sm } := by
  unfold serverCalib
  rw [if_neg]
  rw [List.length_append]
  simp only [List.length_singleton]
  omega

lemma serverCalib_fill (s : SState) (sm : ℚ)
    (h : s.baseline_buffer.length + 1 ≥ s.BASELINE_FRAMES) :
    serverCalib s sm =
      { s with baseline_buffer := s.baseline_buffer ++ [sm],
               smoothed_eye := some sm,
               TH_LOW := some (medianS (s.baseline_buffer ++ [sm]) * (3/4)),
               TH_HIGH := some (medianS (s.baseline_buffer ++ [sm]) * (17/20)) } := by
  unfold serverCalib
  rw [if_pos]
  rw [List.length_append]
  simp only [List.length_singleton]
  omega

lemma serverUncalRun (v : ℚ) :
    ∀ (ts : List ℚ) (s : SState), s.TH_LOW = none →
      (s.smoothed_eye = none ∨ s.smoothed_eye = some v) →
      s.baseline_buffer.length + ts.length < s.BASELINE_FRAMES →
      (runFramesS s (ts.map fun t => ((some v : Option ℚ), t))).TH_LOW = none ∧
      (runFramesS s (ts.map fun t => ((some v : Option ℚ), t))).TH_HIGH =
        s.TH_HIGH ∧
      (runFramesS s (ts.map fun t => ((some v : Option ℚ), t))).baseline_buffer =
        s.baseline_buffer ++ List.replicate ts.length v ∧
      ((runFramesS s (ts.map fun t => ((some v : Option ℚ), t))).smoothed_eye =
          none ∨
        (runFramesS s (ts.map fun t => ((some v : Option ℚ), t))).smoothed_eye =
          some v) ∧
      (runFramesS s (ts.map fun t => ((some v : Option ℚ), t))).BASELINE_FRAMES =
        s.BASELINE_FRAMES := by
  intro ts
  induction ts with
  | nil =>
      intro s h1 h2 h3
      simp only [List.map_nil, runFramesS, List.length_nil,
        List.replicate_zero, List.append_nil]
      exact ⟨h1, trivial, trivial, h2, trivial⟩
  | cons t rest ih =>
      intro s h1 h2 h3
      have hth : s.TH_LOW.isSome = false := by rw [h1]; rfl
      have hsm : serverSmooth s v = v := serverSmooth_const s v h2
      have hstep : (processFrameS s (some v) t).2 =
          { s with baseline_buffer := s.baseline_buffer ++ [v],
                   smoothed_eye := some v } := by
        rw [processFrameS_some_uncal s v t h1, hsm, serverCalib_nofill]
        simp only [List.length_cons] at h3
        omega
      simp only [List.map_cons, runFramesS, hstep]
      have := ih { s with baseline_buffer := s.baseline_buffer ++ [v],
                          smoothed_eye := some v }
        h1 (Or.inr rfl)
        (by simp only [List.length_append, List.length_singleton,
              List.length_cons, List.length_nil] at h3 ⊢; omega)
      obtain ⟨i1, i2, i3, i4, i5⟩ := this
      refine ⟨i1, i2, ?_, i4, i5⟩
      rw [i3]
      simp only [List.length_cons, List.append_assoc, List.singleton_append]
      rw [← List.replicate_succ]

/-- C3: feeding the fresh server detector exactly `calibrationSampleCount`
(= 60) face frames of one identical raw EAR v > 0 (at arbitrary times)
sets TH_LOW = 0.75v and TH_HIGH = 0.85v, and the final call's result
reports `baselineReady = true`. -/
theorem c3_calibration (v : ℚ) (ts : List ℚ) (hv : 0 < v)
    (hlen : ts.length = 60) :
    (runFramesS initServer (ts.map fun t => ((some v : Option ℚ), t))).TH_LOW =
      some (3/4 * v) ∧
    (runFramesS initServer (ts.map fun t => ((some v : Option ℚ), t))).TH_HIGH =
      some (17/20 * v) ∧
    ∃ r, (resultsS initServer
        (ts.map fun t => ((some v : Option ℚ), t))).getLast? = some r ∧
      r.baseline_ready = true := by
  have hne : ts ≠ [] := by
    intro h
    rw [h] at hlen
    exact absurd hlen (by norm_num)
  obtain ⟨ts0, tl, rfl⟩ : ∃ ts0 tl, ts = ts0 ++ [tl] :=
    ⟨ts.dropLast, ts.getLast hne, (List.dropLast_append_getLast hne).symm⟩
  have hlen0 : ts0.length = 59 := by
    rw [List.length_append, List.length_singleton] at hlen
    omega
  obtain ⟨u1, u2, u3, u4, u5⟩ := serverUncalRun v ts0 initServer rfl
    (Or.inl rfl) (by rw [hlen0]; norm_num [initServer])
  set U := runFramesS initServer (ts0.map fun t => ((some v : Option ℚ), t))
    with hU
  have hbufu : U.baseline_buffer = List.replicate 59 v := by
    rw [u3, hlen0]
    rfl
  have hsmu : serverSmooth U v = v := serverSmooth_const _ v u4
  have hfill : U.baseline_buffer.length + 1 ≥ U.BASELINE_FRAMES := by
    rw [hbufu, u5, List.length_replicate]
    norm_num [initServer]
  have hrep : U.baseline_buffer ++ [v] = List.replicate 60 v := by
    rw [hbufu, ← List.replicate_succ']
  have hcal : serverCalib U v =
      { U with baseline_buffer := List.replicate 60 v,
               smoothed_eye := some v,
               TH_LOW := some (v * (3/4)),
               TH_HIGH := some (v * (17/20)) } := by
    rw [serverCalib_fill U v hfill, hrep, medianS_replicate60]
  have hrun : runFramesS initServer
      ((ts0 ++ [tl]).map fun t => ((some v : Option ℚ), t)) =
      serverCalib U v := by
    rw [List.map_append, runFramesS_append, ← hU]
    simp only [List.map_cons, List.map_nil, runFramesS]
    rw [processFrameS_some_uncal U v tl u1, hsmu]
  refine ⟨?_, ?_, ?_⟩
  · rw [hrun, hcal]
    norm_num [mul_comm]
  · rw [hrun, hcal]
    norm_num [mul_comm]
  · refine ⟨getCurrentState (serverCalib U v) true, ?_, ?_⟩
    · rw [List.map_append, resultsS_append, ← hU]
      simp only [List.map_cons, List.map_nil, resultsS]
      rw [processFrameS_some_uncal U v tl u1, hsmu]
      rw [List.getLast?_concat]
    · simp [getCurrentState, hcal]

/-- C3 witness: sixty identical samples of 0.3 at time 0 give thresholds
0.225 / 0.255 and a final baseline-ready result. -/
theorem c3_witness :
    (0 : ℚ) < 3/10 ∧ (List.replicate 60 (0 : ℚ)).length = 60 ∧
    ((runFramesS initServer ((List.replicate 60 (0 : ℚ)).map
        fun t => ((some (3/10) : Option ℚ), t))).TH_LOW = some (3/4 * (3/10)) ∧
      (runFramesS initServer ((List.replicate 60 (0 : ℚ)).map
        fun t => ((some (3/10) : Option ℚ), t))).TH_HIGH =
        some (17/20 * (3/10)) ∧
      ∃ r, (resultsS initServer ((List.replicate 60 (0 : ℚ)).map
          fun t => ((some (3/10) : Option ℚ), t))).getLast? = some r ∧
        r.baseline_ready = true) :=
  ⟨by norm_num, by simp,
   c3_calibration (3/10) (List.replicate 60 0) (by norm_num) (by simp)⟩

/-! ## Operations on the server tracker, for the threshold invariant -/

/-- The three operations a session can perform on the server detector. -/
inductive SOp where
  | frame : Option ℚ → ℚ → SOp
  | reset : SOp
  | setParams : Option ℚ → Option ℚ → Option ℚ → SOp

/-- Apply one operation to the server detector state. -/
def applyOpS (s : SState) : SOp → SState
  | SOp.frame r t => (processFrameS s r t).2
  | SOp.reset => resetBaselineS s
  | SOp.setParams a b c => updateParamsS s a b c

/-- Run a list of operations from a starting state. -/
def runOpsS (s : SState) : List SOp → SState
  | [] => s
  | op :: rest => runOpsS (applyOpS s op) rest

/-- Domain condition matching the documented input domain: raw EAR samples
are positive and a configured smoothing factor lies in [0, 1]. -/
def opSafe : SOp → Bool
  | SOp.frame (some r) _ => decide (0 < r)
  | SOp.frame none _ => true
  | SOp.reset => true
  | SOp.setParams _ _ (some f) => decide (0 ≤ f ∧ f ≤ 1)
  | SOp.setParams _ _ none => true

/-- The threshold shape invariant: both thresholds are absent, or both were
derived from one positive median and so satisfy TH_LOW < TH_HIGH. -/
def ThInv (s : SState) : Prop :=
  (s.TH_LOW = none ∧ s.TH_HIGH = none) ∨
  (∃ m : ℚ, 0 < m ∧ s.TH_LOW = some (m * (3/4)) ∧
    s.TH_HIGH = some (m * (17/20)) ∧ m * (3/4) < m * (17/20))

/-- Full induction invariant: smoothing factor in [0,1], positive smoothed
signal when present, positive buffer contents, and the threshold shape. -/
def SInv (s : SState) : Prop :=
  0 ≤ s.SMOOTHING_FACTOR ∧ s.SMOOTHING_FACTOR ≤ 1 ∧
  (s.smoothed_eye = none ∨ ∃ p, 0 < p ∧ s.smoothed_eye = some p) ∧
  (∀ x ∈ s.baseline_buffer, 0 < x) ∧ ThInv s

lemma convex_pos {f p r : ℚ} (hf0 : 0 ≤ f) (hf1 : f ≤ 1)
    (hp : 0 < p) (hr : 0 < r) : 0 < f * p + (1 - f) * r := by
  rcases eq_or_lt_of_le hf0 with h | h
  · rw [← h]
    ring_nf
    exact hr
  · have h1 : 0 < f * p := mul_pos h hp
    have h2 : 0 ≤ (1 - f) * r := mul_nonneg (by linarith) (le_of_lt hr)
    linarith

lemma th_pair_lt {m : ℚ} (hm : 0 < m) : m * (3/4) < m * (17/20) := by
  nlinarith

lemma medianS_pos (l : List ℚ) (hne : l ≠ [])
    (hpos : ∀ x ∈ l, 0 < x) : 0 < medianS l := by
  have hn : 0 < l.length := List.length_pos.2 hne
  have aux : ∀ i, i < l.length → 0 < (l.insertionSort (· ≤ ·)).getD i 0 := by
    intro i hi
    have hl : i < (l.insertionSort (· ≤ ·)).length := by
      rw [List.length_insertionSort]
      exact hi
    rw [List.getD_eq_getElem _ _ hl]
    exact hpos _ ((List.mem_insertionSort _).1 (List.getElem_mem hl))
  unfold medianS
  split_ifs with hpar
  · exact aux _ (by omega)
  · have ha := aux (l.length / 2 - 1) (by omega)
    have hb := aux (l.length / 2) (by omega)
    linarith

lemma serverSmooth_pos (s : SState) (r : ℚ)
    (hf0 : 0 ≤ s.SMOOTHING_FACTOR) (hf1 : s.SMOOTHING_FACTOR ≤ 1)
    (hsm : s.smoothed_eye = none ∨ ∃ p, 0 < p ∧ s.smoothed_eye = some p)
    (hr : 0 < r) : 0 < serverSmooth s r := by
  rcases hsm with h | ⟨p, hp, h⟩
  · simp [serverSmooth, h]
    exact hr
  · rw [serverSmooth, h]
    exact convex_pos hf0 hf1 hp hr

lemma updateParamsS_proj (s : SState) (a b c : Option ℚ) :
    (updateParamsS s a b c).TH_LOW = s.TH_LOW ∧
    (updateParamsS s a b c).TH_HIGH = s.TH_HIGH ∧
    (updateParamsS s a b c).smoothed_eye = s.smoothed_eye ∧
    (updateParamsS s a b c).baseline_buffer = s.baseline_buffer ∧
    (updateParamsS s a b c).SMOOTHING_FACTOR =
      (match c with
        | some f => f
        | none => s.SMOOTHING_FACTOR) := by
  cases a <;> cases b <;> cases c <;> simp [updateParamsS]

lemma processFrameS_TH_preserved (s : SState) (r : Option ℚ) (t : ℚ)
    (h : s.TH_LOW.isSome = true) :
    (processFrameS s r t).2.TH_LOW = s.TH_LOW ∧
    (processFrameS s r t).2.TH_HIGH = s.TH_HIGH := by
  match r with
  | none => exact ⟨rfl, rfl⟩
  | some raw =>
      rw [processFrameS_some_cal s raw t h]
      obtain ⟨-, -, -, -, -, -, a7, a8, -⟩ :=
        serverAlarm_snd_proj (serverSmooth s raw) t
          (serverMachine (serverSmooth s raw) t s)
      obtain ⟨-, -, -, -, -, -, m7, m8, -⟩ :=
        serverMachine_proj (serverSmooth s raw) t s
      rw [a7, m7, a8, m8]
      exact ⟨rfl, rfl⟩

lemma SInv_frame (s : SState) (r? : Option ℚ) (t : ℚ) (hs : SInv s)
    (hr : ∀ x, r? = some x → 0 < x) : SInv (processFrameS s r? t).2 := by
  obtain ⟨hf0, hf1, hsm, hbuf, hth⟩ := hs
  match r? with
  | none => exact ⟨hf0, hf1, hsm, hbuf, hth⟩
  | some r =>
      have hrp : 0 < r := hr r rfl
      have hsmp : 0 < serverSmooth s r := serverSmooth_pos s r hf0 hf1 hsm hrp
      by_cases hcal : s.TH_LOW.isSome
      · rw [processFrameS_some_cal s r t hcal]
        obtain ⟨-, -, a3, -, -, a6, a7, a8, a9, -⟩ :=
          serverAlarm_snd_proj (serverSmooth s r) t
            (serverMachine (serverSmooth s r) t s)
        obtain ⟨-, -, m3, -, -, m6, m7, m8, m9, -⟩ :=
          serverMachine_proj (serverSmooth s r) t s
        refine ⟨?_, ?_, ?_, ?_, ?_⟩
        · rw [a3, m3]; exact hf0
        · rw [a3, m3]; exact hf1
        · right
          exact ⟨serverSmooth s r, hsmp, by rw [a9, m9]⟩
        · rw [a6, m6]; exact hbuf
        · unfold ThInv at hth ⊢
          rw [a7, m7, a8, m8]
          exact hth
      · have hnone : s.TH_LOW = none := by
          cases hh : s.TH_LOW
          · rfl
          · rw [hh] at hcal; simp at hcal
        rw [processFrameS_some_uncal s r t hnone]
        have hbufpos : ∀ x ∈ s.baseline_buffer ++ [serverSmooth s r], 0 < x := by
          intro x hx
          rcases List.mem_append.1 hx with hx | hx
          · exact hbuf x hx
          · rw [List.mem_singleton] at hx
            rw [hx]
            exact hsmp
        by_cases hfill : s.baseline_buffer.length + 1 ≥ s.BASELINE_FRAMES
        · rw [serverCalib_fill s _ hfill]
          have hmp : 0 < medianS (s.baseline_buffer ++ [serverSmooth s r]) :=
            medianS_pos _ (by simp) hbufpos
          refine ⟨hf0, hf1, Or.inr ⟨serverSmooth s r, hsmp, rfl⟩, hbufpos, ?_⟩
          exact Or.inr ⟨medianS (s.baseline_buffer ++ [serverSmooth s r]),
            hmp, rfl, rfl, th_pair_lt hmp⟩
        · rw [serverCalib_nofill s _ (by omega)]
          refine ⟨hf0, hf1, Or.inr ⟨serverSmooth s r, hsmp, rfl⟩, hbufpos, ?_⟩
          left
          refine ⟨hnone, ?_⟩
          rcases hth with ⟨-, h2⟩ | ⟨m, -, hlo, -, -⟩
          · exact h2
          · rw [hnone] at hlo
            cases hlo

lemma SInv_reset (s : SState) (hs : SInv s) : SInv (resetBaselineS s) := by
  obtain ⟨hf0, hf1, hsm, -, -⟩ := hs
  refine ⟨hf0, hf1, hsm, ?_, Or.inl ⟨rfl, rfl⟩⟩
  intro x hx
  simp [resetBaselineS] at hx

lemma SInv_params (s : SState) (a b c : Option ℚ) (hs : SInv s)
    (hc : ∀ f, c = some f → 0 ≤ f ∧ f ≤ 1) : SInv (updateParamsS s a b c) := by
  obtain ⟨p1, p2, p3, p4, p5⟩ := updateParamsS_proj s a b c
  obtain ⟨hf0, hf1, hsm, hbuf, hth⟩ := hs
  refine ⟨?_, ?_, ?_, ?_, ?_⟩
  · rw [p5]
    cases c with
    | none => exact hf0
    | some f => exact (hc f rfl).1
  · rw [p5]
    cases c with
    | none => exact hf1
    | some f => exact (hc f rfl).2
  · rw [p3]; exact hsm
  · rw [p4]; exact hbuf
  · unfold ThInv at hth ⊢
    rw [p1, p2]
    exact hth

lemma SInv_runOps : ∀ (ops : List SOp) (s : SState), SInv s →
    (∀ op ∈ ops, opSafe op = true) → SInv (runOpsS s ops) := by
  intro ops
  induction ops with
  | nil => intro s hs _; exact hs
  | cons op rest ih =>
      intro s hs h
      have hop := h op (List.mem_cons_self op rest)
      have hrest : ∀ o ∈ rest, opSafe o = true :=
        fun o ho => h o (List.mem_cons_of_mem _ ho)
      have hstep : SInv (applyOpS s op) := by
        match op with
        | SOp.frame r t =>
            apply SInv_frame s r t hs
            intro x hx
            rw [hx] at hop
            exact of_decide_eq_true hop
        | SOp.reset => exact SInv_reset s hs
        | SOp.setParams a b c =>
            apply SInv_params s a b c hs
            intro f hf
            rw [hf] at hop
            exact of_decide_eq_true hop
      exact ih (applyOpS s op) hstep hrest

lemma SInv_init : SInv initServer := by
  refine ⟨by norm_num [initServer], by norm_num [initServer],
    Or.inl rfl, ?_, Or.inl ⟨rfl, rfl⟩⟩
  intro x hx
  simp [initServer] at hx

/-- C9: over any session of frames (with positive samples), resets and
parameter updates (with smoothing factors in [0,1]), every reachable
server state either has both thresholds absent or both derived from one
positive median as median*0.75 and median*0.85 with TH_LOW < TH_HIGH;
moreover parameter updates never touch the thresholds, a frame processed
with thresholds defined leaves them unchanged, and only a reset clears
them back to the uncalibrated condition. -/
theorem c9_threshold_invariant (ops : List SOp)
    (hops : ∀ op ∈ ops, opSafe op = true) :
    ThInv (runOpsS initServer ops) ∧
    (∀ lo hi, (runOpsS initServer ops).TH_LOW = some lo →
      (runOpsS initServer ops).TH_HIGH = some hi → lo < hi) ∧
    (∀ (s : SState) (a b c : Option ℚ),
      (updateParamsS s a b c).TH_LOW = s.TH_LOW ∧
      (updateParamsS s a b c).TH_HIGH = s.TH_HIGH) ∧
    (∀ (s : SState) (r : Option ℚ) (t : ℚ), s.TH_LOW.isSome = true →
      ((processFrameS s r t).2.TH_LOW = s.TH_LOW ∧
        (processFrameS s r t).2.TH_HIGH = s.TH_HIGH)) ∧
    (∀ s : SState, (resetBaselineS s).TH_LOW = none ∧
      (resetBaselineS s).TH_HIGH = none) := by
  have hinv := SInv_runOps ops initServer SInv_init hops
  obtain ⟨-, -, -, -, hth⟩ := hinv
  refine ⟨hth, ?_, ?_, processFrameS_TH_preserved, fun s => ⟨rfl, rfl⟩⟩
  · intro lo hi hlo hhi
    rcases hth with ⟨h1, -⟩ | ⟨m, -, h1, h2, h3⟩
    · rw [h1] at hlo
      cases hlo
    · rw [h1] at hlo
      rw [h2] at hhi
      cases hlo
      cases hhi
      exact h3
  · intro s a b c
    obtain ⟨p1, p2, -⟩ := updateParamsS_proj s a b c
    exact ⟨p1, p2⟩

/-- C9 witness: a concrete safe session (one positive frame, a reset, a
parameter update, a no-face frame) keeps the threshold invariant. -/
theorem c9_witness :
    (∀ op ∈ [SOp.frame (some 1) 0, SOp.reset,
        SOp.setParams none none (some 1), SOp.frame none 1],
      opSafe op = true) ∧
    ThInv (runOpsS initServer [SOp.frame (some 1) 0, SOp.reset,
      SOp.setParams none none (some 1), SOp.frame none 1]) :=
  ⟨by intro op hop; fin_cases hop <;> simp [opSafe],
   (c9_threshold_invariant [SOp.frame (some 1) 0, SOp.reset,
      SOp.setParams none none (some 1), SOp.frame none 1]
     (by intro op hop; fin_cases hop <;> simp [opSafe])).1⟩
